import Mathlib

/-!
Verification development for the ARQV30 "v41" marketing-analysis repository.

This file shallowly embeds the parts of the Python source that the verified
claims are about:

* `src/services/ultra_detailed_analysis_engine.py` — the 13-stage report
  pipeline (`UltraDetailedAnalysisEngine`),
* `src/database.py` — `DatabaseManager.create_analysis` / `get_analysis`,
* `src/routes/analysis.py` — the `POST /analyze` handler `analyze_market`,
* `src/routes/pdf_generator.py` — `PDFGenerator.generate_analysis_report`.

Python values flowing through the system (parsed JSON bodies, report
sections, database rows) are modelled by the inductive type `JVal`; Python
dicts are association lists in insertion order, matching CPython's
insertion-ordered dicts.  External collaborators (the search manager, the
content extractor, the LLM client `ai_manager.generate_analysis`, the
wall clock and the Supabase backend) are oracles passed in explicitly;
the LLM oracle is indexed by the number of prior LLM invocations, which
is faithful because the engine performs its calls in one fixed sequence.

Documented approximations (none is load-bearing for any theorem):
numeric values are exact rationals rather than IEEE doubles, `:.2f`
formatting rounds half-up on the exact rational, `str.lower` lowercases
ASCII only, Python `float()` underscore separators and `inf`/`nan`
spellings are not modelled, and `repr` of a non-integral number is
rendered as `num/den`.  All numeric values exercised by concrete
theorems are integers, and no theorem depends on rounding.
-/

set_option linter.unusedVariables false

namespace V41

/-! ## Python string primitives -/

/-- Characters stripped by Python's `str.strip()` (ASCII whitespace; the
rare non-ASCII whitespace code points are not modelled). -/
def pyIsSpace (c : Char) : Bool :=
  c = ' ' ∨ c = '\t' ∨ c = '\n' ∨ c = '\r' ∨ c = '\x0b' ∨ c = '\x0c'

/-- Trim `pyIsSpace` characters from both ends of a character list. -/
def trimWs (cs : List Char) : List Char :=
  ((cs.dropWhile pyIsSpace).reverse.dropWhile pyIsSpace).reverse

/-- Embedding of Python `str.strip()` with no arguments. -/
def pyStrip (s : String) : String := String.mk (trimWs s.toList)

/-- Embedding of Python `str.find`: index (in code points) of the first
occurrence of `pat`, or `none` where Python returns `-1`. -/
def pyFindL (pat : List Char) : List Char → Option Nat
  | [] => if pat.isEmpty then some 0 else none
  | c :: rest =>
    if pat.isPrefixOf (c :: rest) then some 0
    else match pyFindL pat rest with
      | some j => some (j + 1)
      | none => none

/-- Embedding of Python `str.rfind`: index of the rightmost occurrence. -/
def pyRfindL (pat : List Char) : List Char → Option Nat
  | [] => if pat.isEmpty then some 0 else none
  | c :: rest =>
    match pyRfindL pat rest with
    | some j => some (j + 1)
    | none => if pat.isPrefixOf (c :: rest) then some 0 else none

/-- Embedding of Python's `pat in s` substring test. -/
def pyContains (s pat : String) : Bool :=
  (pyFindL pat.toList s.toList).isSome

/-- Embedding of the Python slice `s[a:b]` for non-negative bounds. -/
def pySliceL (cs : List Char) (a b : Nat) : List Char :=
  (cs.take b).drop a

/-- Embedding of the Python slice `s[a:b]` on strings. -/
def pySlice (s : String) (a b : Nat) : String :=
  String.mk (pySliceL s.toList a b)

/-- Embedding of the Python truncation `s[:n]`. -/
def pyTake (n : Nat) (s : String) : String := String.mk (s.toList.take n)

/-- Embedding of Python `str.replace` (all occurrences) for a non-empty
pattern, given as head character plus tail; fuelled so that it reduces
structurally (any fuel of at least the input length is exact). -/
def pyReplaceL (p0 : Char) (ptl repl : List Char) : Nat → List Char → List Char
  | 0, cs => cs
  | _ + 1, [] => []
  | fuel + 1, c :: rest =>
    if (p0 :: ptl).isPrefixOf (c :: rest) then
      repl ++ pyReplaceL p0 ptl repl fuel (rest.drop ptl.length)
    else
      c :: pyReplaceL p0 ptl repl fuel rest

/-- Embedding of `s.replace("R$ ", "")` / `s.replace(",", "")` style calls. -/
def pyReplace (s pat repl : String) : String :=
  match pat.toList with
  | [] => s
  | p0 :: ptl => String.mk (pyReplaceL p0 ptl repl.toList s.toList.length s.toList)

/-- Embedding of Python `str.lower` (ASCII case folding only). -/
def pyLower (s : String) : String := s.map Char.toLower

/-! ## Decimal numbers

Python numbers reaching the embedded code are decimal literals and
products/quotients by powers of ten, so they are modelled exactly by an
unnormalized decimal mantissa/exponent pair `m * 10^e` (IEEE rounding of
the underlying doubles is not modelled; no theorem depends on it). -/

/-- A decimal number `m * 10^e`. -/
structure Dec where
  m : Int
  e : Int
deriving DecidableEq, Repr

/-- The integer `n` as a decimal. -/
def Dec.ofInt (n : Int) : Dec := ⟨n, 0⟩

instance : OfNat Dec n := ⟨Dec.ofInt n⟩

/-- Exact product of two decimals. -/
def Dec.mul (a b : Dec) : Dec := ⟨a.m * b.m, a.e + b.e⟩

/-- Whether the decimal is zero. -/
def Dec.isZero (a : Dec) : Bool := a.m = 0

/-- `10 ^ k` as an integer. -/
def pow10 (k : Nat) : Int := (10 : Int) ^ k

/-- Round a decimal to the nearest integer, half away handled upward
(stands in for Python's float rounding; exercised only on exact values). -/
def Dec.roundInt (a : Dec) : Int :=
  if 0 ≤ a.e then a.m * pow10 a.e.toNat
  else
    let b := pow10 (-a.e).toNat
    Int.fdiv (2 * a.m + b) (2 * b)

/-- Floor of a decimal divided by a positive integer (Python `//`). -/
def Dec.fdivInt (a : Dec) (k : Int) : Int :=
  if 0 ≤ a.e then Int.fdiv (a.m * pow10 a.e.toNat) k
  else Int.fdiv a.m (k * pow10 (-a.e).toNat)

/-! ## Decimal rendering and Python `float()` parsing -/

/-- ASCII digit character for `d % 10`. -/
def digitChar (d : Nat) : Char := Char.ofNat (48 + d % 10)

/-- Fuelled most-significant-first decimal digits of a natural number. -/
def natDigitsAux : Nat → Nat → List Char
  | 0, _ => []
  | fuel + 1, n =>
    if n = 0 then [] else natDigitsAux fuel (n / 10) ++ [digitChar (n % 10)]

/-- Decimal digits of a natural number, `['0']` for zero. -/
def natDigits (n : Nat) : List Char :=
  if n = 0 then ['0'] else natDigitsAux (n + 1) n

/-- Decimal string of a natural number, as printed by Python. -/
def natStr (n : Nat) : String := String.mk (natDigits n)

/-- Decimal string of an integer, as printed by Python. -/
def intStr (i : Int) : String :=
  String.mk ((if i < 0 then ['-'] else []) ++ natDigits i.natAbs)

/-- Embedding of the Python format `f"{x:.2f}"` on an exact decimal. -/
def fmt2 (q : Dec) : String :=
  let c : Int := Dec.roundInt ⟨q.m, q.e + 2⟩
  let a := c.natAbs
  String.mk ((if c < 0 then ['-'] else []) ++ natDigits (a / 100) ++
    ['.', digitChar (a / 10 % 10), digitChar (a % 10)])

/-- Numeric value of a list of ASCII digits. -/
def digitsVal (ds : List Char) : Nat :=
  ds.foldl (fun a c => a * 10 + (c.toNat - 48)) 0

/-- Pad a digit list with leading zeros up to width `k`. -/
def padLeftZeros (k : Nat) (ds : List Char) : List Char :=
  List.replicate (k - ds.length) '0' ++ ds

/-- Decimal rendering of a `Dec` as Python prints the number (integers
without a fractional part; floats with one). -/
def decRepr (d : Dec) : String :=
  if 0 ≤ d.e then intStr (d.m * pow10 d.e.toNat)
  else
    let k := (-d.e).toNat
    let a := d.m.natAbs
    let scale := (pow10 k).toNat
    (if d.m < 0 then "-" else "") ++ natStr (a / scale) ++ "." ++
      String.mk (padLeftZeros k (natDigits (a % scale)))

/-- Embedding of Python `float(s)` on a string: optional sign, decimal
digits with optional fraction and exponent; `none` where Python raises
`ValueError` (`inf`/`nan` spellings and `_` separators not modelled). -/
def pyFloat (s : String) : Option Dec :=
  let cs := trimWs s.toList
  let neg : Bool := cs.head? = some '-'
  let cs := if cs.head? = some '-' ∨ cs.head? = some '+' then cs.tail else cs
  let ip := cs.takeWhile Char.isDigit
  let cs := cs.dropWhile Char.isDigit
  let hasDot : Bool := cs.head? = some '.'
  let fp := if hasDot then cs.tail.takeWhile Char.isDigit else []
  let cs := if hasDot then cs.tail.dropWhile Char.isDigit else cs
  if ip.isEmpty ∧ fp.isEmpty then none
  else
    let sgn : Int := if neg then -1 else 1
    let mant : Int := sgn * ((digitsVal ip : Int) * pow10 fp.length + (digitsVal fp : Int))
    let exp0 : Int := -(fp.length : Int)
    if cs.isEmpty then some ⟨mant, exp0⟩
    else if cs.head? = some 'e' ∨ cs.head? = some 'E' then
      let t := cs.tail
      let esgn : Int := if t.head? = some '-' then -1 else 1
      let t := if t.head? = some '-' ∨ t.head? = some '+' then t.tail else t
      let ed := t.takeWhile Char.isDigit
      let t := t.dropWhile Char.isDigit
      if ed.isEmpty ∨ ¬t.isEmpty then none
      else some ⟨mant, exp0 + esgn * (digitsVal ed : Int)⟩
    else none

/-! ## JSON / Python values

`JVal` models the Python values that flow through the system: `None`,
booleans, numbers, strings, lists, and insertion-ordered dicts. -/

inductive JVal where
  | null
  | bool (b : Bool)
  | num (q : Dec)
  | str (s : String)
  | arr (xs : List JVal)
  | obj (kvs : List (String × JVal))

instance : Inhabited JVal := ⟨.null⟩

/-- A Python dict value: association list in insertion order. -/
abbrev Dict := List (String × JVal)

/-- Lookup in a dict (Python `d.get(key)` / `d[key]` hit). -/
def dictGet : Dict → String → Option JVal
  | [], _ => none
  | (k, v) :: kvs, key => if k = key then some v else dictGet kvs key

/-- Embedding of the Python assignment `d[key] = v`: updates in place if
the key exists (keeping its position), otherwise appends. -/
def dictSet : Dict → String → JVal → Dict
  | [], key, v => [(key, v)]
  | (k, w) :: kvs, key, v =>
    if k = key then (k, v) :: kvs else (k, w) :: dictSet kvs key v

/-- Embedding of Python `dict.update(other)`. -/
def dictMerge (d other : Dict) : Dict :=
  other.foldl (fun acc kv => dictSet acc kv.1 kv.2) d

/-- Whether a dict has a key (Python `key in d`). -/
def hasKey (d : Dict) (k : String) : Bool := (dictGet d k).isSome

/-- Python `.get(key)` on a value statically known to be a dict (every
call site in the embedded code has a dict receiver). -/
def jget (v : JVal) (key : String) : Option JVal :=
  match v with
  | .obj kvs => dictGet kvs key
  | _ => none

/-- Python `.get(key, default)` on a dict value. -/
def jgetD (v : JVal) (key : String) (dflt : JVal) : JVal :=
  (jget v key).getD dflt

mutual

/-- Whether a JSON value is, or recursively contains, an object entry with
the given key. -/
def jContainsKey (key : String) : JVal → Bool
  | .arr xs => jContainsKeyL key xs
  | .obj kvs => jContainsKeyKV key kvs
  | _ => false

/-- List helper for `jContainsKey`. -/
def jContainsKeyL (key : String) : List JVal → Bool
  | [] => false
  | x :: xs => jContainsKey key x || jContainsKeyL key xs

/-- Object helper for `jContainsKey`. -/
def jContainsKeyKV (key : String) : List (String × JVal) → Bool
  | [] => false
  | (k, v) :: kvs => decide (k = key) || jContainsKey key v || jContainsKeyKV key kvs

end

/-- Embedding of Python truthiness (`bool(x)`). -/
def pyTruthy : JVal → Bool
  | .null => false
  | .bool b => b
  | .num q => !q.isZero
  | .str s => decide (s ≠ "")
  | .arr xs => !xs.isEmpty
  | .obj kvs => !kvs.isEmpty

/-- Python `isinstance(x, dict)`. -/
def isDict : JVal → Bool
  | .obj _ => true
  | _ => false

/-- Whether an embedded value is a Python `str`. -/
def isStr : JVal → Bool
  | .str _ => true
  | _ => false

/-- Python type name of an embedded value (used in exception messages). -/
def pyTypeName : JVal → String
  | .null => "NoneType"
  | .bool _ => "bool"
  | .num q => if 0 ≤ q.e then "int" else "float"
  | .str _ => "str"
  | .arr _ => "list"
  | .obj _ => "dict"

/-- Python `v.get(key)` on an arbitrary value: `AttributeError` when the
receiver is not a dict, otherwise the stored value if the key is present.
Call sites whose source passes a default apply `.getD` to the result. -/
def pyDictGet (v : JVal) (key : String) : Except String (Option JVal) :=
  match v with
  | .obj kvs => .ok (dictGet kvs key)
  | w => .error ("'" ++ pyTypeName w ++ "' object has no attribute 'get'")

/-- Python `v.get(key, dflt)` (default returned only when the key is
absent, as in Python). -/
def pyDictGetD (v : JVal) (key : String) (dflt : JVal) : Except String JVal :=
  (pyDictGet v key).map (fun o => o.getD dflt)

/-- Python `v.items()`: `AttributeError` on a non-dict receiver. -/
def pyItems (v : JVal) : Except String Dict :=
  match v with
  | .obj kvs => .ok kvs
  | w => .error ("'" ++ pyTypeName w ++ "' object has no attribute 'items'")

/-- Whether Python `for x in v` (or `enumerate(v)`) raises: lists, strings
and dicts (over their keys) iterate; `None`, numbers and booleans raise
`TypeError`. -/
def pyIterOk (v : JVal) : Except String Unit :=
  match v with
  | .arr _ => .ok ()
  | .str _ => .ok ()
  | .obj _ => .ok ()
  | w => .error ("'" ++ pyTypeName w ++ "' object is not iterable")

/-- Whether Python `v[:n]` raises: slicing works on lists and strings,
raises `TypeError` on dicts (unhashable slice key) and on
non-subscriptable values. -/
def pySliceOk (v : JVal) : Except String Unit :=
  match v with
  | .arr _ => .ok ()
  | .str _ => .ok ()
  | .obj _ => .error "unhashable type: 'slice'"
  | w => .error ("'" ++ pyTypeName w ++ "' object is not subscriptable")

/-- Python `v[:n]` on a value `pySliceOk` accepts. -/
def pySliceTake (n : Nat) : JVal → JVal
  | .str s => .str (pyTake n s)
  | .arr xs => .arr (xs.take n)
  | v => v

/-- First element of a list that is not a Python `str`, if any. -/
def firstNonStr : List JVal → Option JVal
  | [] => none
  | x :: xs => if isStr x then firstNonStr xs else some x

/-- Whether Python `", ".join(v)` raises: the argument must be iterable
and every element a string (a dict iterates over its string keys, a
string over its characters). -/
def pyJoinOk (v : JVal) : Except String Unit :=
  match v with
  | .str _ => .ok ()
  | .obj _ => .ok ()
  | .arr xs =>
    match firstNonStr xs with
    | none => .ok ()
    | some w => .error ("sequence item: expected str instance, " ++
        pyTypeName w ++ " found")
  | w => .error ("can only join an iterable (got " ++ pyTypeName w ++ ")")

/-- Whether Python `f"{v:,}"` raises: numbers (and booleans, as `int`
subclasses) format, a string raises `ValueError`, other values raise
`TypeError`. -/
def pyFormatCommaOk (v : JVal) : Except String Unit :=
  match v with
  | .num _ => .ok ()
  | .bool _ => .ok ()
  | .str _ => .error "Cannot specify ',' with 's'."
  | w => .error ("unsupported format string passed to " ++ pyTypeName w ++
      ".__format__")

mutual

/-- Embedding of Python `repr(x)` for embedded values (strings are
single-quoted; escaping of quotes inside strings is not modelled, no
embedded string literal in the claims' inputs contains a quote). -/
def pyReprV : JVal → String
  | .null => "None"
  | .bool b => if b then "True" else "False"
  | .num q => decRepr q
  | .str s => "'" ++ s ++ "'"
  | .arr xs => "[" ++ pyReprL xs ++ "]"
  | .obj kvs => "\x7b" ++ pyReprKV kvs ++ "\x7d"

/-- Comma-joined `repr` of list elements. -/
def pyReprL : List JVal → String
  | [] => ""
  | [x] => pyReprV x
  | x :: xs => pyReprV x ++ ", " ++ pyReprL xs

/-- Comma-joined `repr` of dict entries. -/
def pyReprKV : List (String × JVal) → String
  | [] => ""
  | [(k, v)] => "'" ++ k ++ "': " ++ pyReprV v
  | (k, v) :: kvs => "'" ++ k ++ "': " ++ pyReprV v ++ ", " ++ pyReprKV kvs

end

/-- Embedding of Python `str(x)` (used by f-string interpolation). -/
def pyToStr : JVal → String
  | .str s => s
  | v => pyReprV v

/-- Interpolation `f"{d.get(key)}"`: `str` of the value, `"None"` when the
key is absent. -/
def pyStrF (o : Option JVal) : String :=
  match o with
  | none => "None"
  | some v => pyToStr v

/-- JSON string escaping as done by `json.dumps(..., ensure_ascii=False)`. -/
def jsonEscape (s : String) : String :=
  s.toList.foldl
    (fun acc c =>
      if c = '"' then acc ++ "\\\""
      else if c = '\\' then acc ++ "\\\\"
      else if c = '\n' then acc ++ "\\n"
      else if c = '\t' then acc ++ "\\t"
      else if c = '\r' then acc ++ "\\r"
      else if c.toNat < 32 then acc ++ "\\u00" ++
        String.mk [digitChar (c.toNat / 16), digitChar (c.toNat % 16)]
      else acc.push c)
    ""

/-- Indentation used by `json.dumps(..., indent=2)`. -/
def jsonInd (n : Nat) : String := String.mk (List.replicate n ' ')

mutual

/-- Embedding of `json.dumps(v, ensure_ascii=False, indent=2)` at nesting
depth `ind`. -/
def jsonDumps2 (ind : Nat) : JVal → String
  | .null => "null"
  | .bool b => if b then "true" else "false"
  | .num q => decRepr q
  | .str s => "\"" ++ jsonEscape s ++ "\""
  | .arr [] => "[]"
  | .arr (x :: xs) =>
    "[\n" ++ jsonDumps2L (ind + 2) (x :: xs) ++ "\n" ++ jsonInd ind ++ "]"
  | .obj [] => "\x7b\x7d"
  | .obj (kv :: kvs) =>
    "\x7b\n" ++ jsonDumps2KV (ind + 2) (kv :: kvs) ++ "\n" ++ jsonInd ind ++ "\x7d"

/-- Array elements for `jsonDumps2`, one per line. -/
def jsonDumps2L (ind : Nat) : List JVal → String
  | [] => ""
  | [x] => jsonInd ind ++ jsonDumps2 ind x
  | x :: xs => jsonInd ind ++ jsonDumps2 ind x ++ ",\n" ++ jsonDumps2L ind xs

/-- Object entries for `jsonDumps2`, one per line. -/
def jsonDumps2KV (ind : Nat) : List (String × JVal) → String
  | [] => ""
  | [(k, v)] => jsonInd ind ++ "\"" ++ jsonEscape k ++ "\": " ++ jsonDumps2 ind v
  | (k, v) :: kvs =>
    jsonInd ind ++ "\"" ++ jsonEscape k ++ "\": " ++ jsonDumps2 ind v ++ ",\n" ++
      jsonDumps2KV ind kvs

end

/-- Top-level `json.dumps(v, ensure_ascii=False, indent=2)`. -/
def jsonDumps (v : JVal) : String := jsonDumps2 0 v

/-! ## Embedding of `json.loads`

Recursive-descent parse of the RFC 8259 grammar accepted by Python's
`json.loads` with default arguments.  Deviations (documented, not
load-bearing): the nonstandard `Infinity` / `-Infinity` / `NaN` literals
are rejected, and `\uXXXX` escapes are mapped code-unit-wise without
surrogate pairing. -/

/-- JSON insignificant whitespace. -/
def jsonWs (c : Char) : Bool := c = ' ' ∨ c = '\t' ∨ c = '\n' ∨ c = '\r'

/-- Value of one hexadecimal digit. -/
def hexVal (c : Char) : Option Nat :=
  if '0' ≤ c ∧ c ≤ '9' then some (c.toNat - 48)
  else if 'a' ≤ c ∧ c ≤ 'f' then some (c.toNat - 87)
  else if 'A' ≤ c ∧ c ≤ 'F' then some (c.toNat - 55)
  else none

/-- Parse exactly four hex digits. -/
def parseHex4 (cs : List Char) : Option (Nat × List Char) :=
  match cs with
  | a :: b :: c :: d :: rest =>
    match hexVal a, hexVal b, hexVal c, hexVal d with
    | some x, some y, some z, some w => some (((x * 16 + y) * 16 + z) * 16 + w, rest)
    | _, _, _, _ => none
  | _ => none

/-- Parse the body of a JSON string (after the opening quote) up to the
closing quote. -/
def parseJStr : Nat → List Char → Option (List Char × List Char)
  | 0, _ => none
  | _, [] => none
  | fuel + 1, c :: rest =>
    if c = '"' then some ([], rest)
    else if c = '\\' then
      match rest with
      | [] => none
      | e :: rest' =>
        let esc : Option (Char × List Char) :=
          if e = '"' then some ('"', rest')
          else if e = '\\' then some ('\\', rest')
          else if e = '/' then some ('/', rest')
          else if e = 'b' then some ('\x08', rest')
          else if e = 'f' then some ('\x0c', rest')
          else if e = 'n' then some ('\n', rest')
          else if e = 'r' then some ('\r', rest')
          else if e = 't' then some ('\t', rest')
          else if e = 'u' then
            match parseHex4 rest' with
            | some (n, rest'') => some (Char.ofNat n, rest'')
            | none => none
          else none
        match esc with
        | none => none
        | some (ch, rest'') =>
          match parseJStr fuel rest'' with
          | some (body, fin) => some (ch :: body, fin)
          | none => none
    else if c.toNat < 32 then none
    else
      match parseJStr fuel rest with
      | some (body, fin) => some (c :: body, fin)
      | none => none

/-- Parse a JSON number per the `json` grammar: `-? int frac? exp?` with
no leading zeros and no leading `+`. -/
def parseJNum (cs : List Char) : Option (Dec × List Char) :=
  let (sgn, cs) : Int × List Char :=
    match cs with
    | '-' :: t => (-1, t)
    | _ => (1, cs)
  let ip := cs.takeWhile Char.isDigit
  let cs := cs.dropWhile Char.isDigit
  let intOk : Bool :=
    match ip with
    | [] => false
    | ['0'] => true
    | d :: _ => d ≠ '0'
  if ¬intOk then none
  else
    let (fp, cs, fracOk) : List Char × List Char × Bool :=
      match cs with
      | '.' :: t =>
        let ds := t.takeWhile Char.isDigit
        (ds, t.dropWhile Char.isDigit, !ds.isEmpty)
      | _ => ([], cs, true)
    if ¬fracOk then none
    else
      let mant : Int := sgn * ((digitsVal ip : Int) * pow10 fp.length + (digitsVal fp : Int))
      let exp0 : Int := -(fp.length : Int)
      match cs with
      | e :: t =>
        if e = 'e' ∨ e = 'E' then
          let (esgn, t) : Int × List Char :=
            match t with
            | '-' :: u => (-1, u)
            | '+' :: u => (1, u)
            | _ => (1, t)
          let ed := t.takeWhile Char.isDigit
          let t := t.dropWhile Char.isDigit
          if ed.isEmpty then none
          else some (⟨mant, exp0 + esgn * (digitsVal ed : Int)⟩, t)
        else some (⟨mant, exp0⟩, e :: t)
      | [] => some (⟨mant, exp0⟩, [])

mutual

/-- Parse one JSON value after skipping leading whitespace. -/
def parseJVal : Nat → List Char → Option (JVal × List Char)
  | 0, _ => none
  | fuel + 1, cs =>
    let cs := cs.dropWhile jsonWs
    match cs with
    | [] => none
    | c :: rest =>
      if c = 'n' then
        if ['u', 'l', 'l'].isPrefixOf rest then some (.null, rest.drop 3) else none
      else if c = 't' then
        if ['r', 'u', 'e'].isPrefixOf rest then some (.bool true, rest.drop 3) else none
      else if c = 'f' then
        if ['a', 'l', 's', 'e'].isPrefixOf rest then some (.bool false, rest.drop 4) else none
      else if c = '"' then
        match parseJStr (rest.length + 1) rest with
        | some (body, fin) => some (.str (String.mk body), fin)
        | none => none
      else if c = '[' then
        match (rest.dropWhile jsonWs) with
        | ']' :: fin => some (.arr [], fin)
        | _ =>
          match parseJArrItems fuel rest with
          | some (xs, fin) => some (.arr xs, fin)
          | none => none
      else if c = '\x7b' then
        match (rest.dropWhile jsonWs) with
        | '\x7d' :: fin => some (.obj [], fin)
        | _ =>
          match parseJObjItems fuel rest with
          | some (kvs, fin) => some (.obj (dictMerge [] kvs), fin)
          | none => none
      else
        match parseJNum (c :: rest) with
        | some (q, fin) => some (.num q, fin)
        | none => none

/-- Parse one-or-more comma-separated array elements and the closing
bracket. -/
def parseJArrItems : Nat → List Char → Option (List JVal × List Char)
  | 0, _ => none
  | fuel + 1, cs =>
    match parseJVal fuel cs with
    | none => none
    | some (v, rest) =>
      match rest.dropWhile jsonWs with
      | ']' :: fin => some ([v], fin)
      | ',' :: after =>
        match parseJArrItems fuel after with
        | some (xs, fin) => some (v :: xs, fin)
        | none => none
      | _ => none

/-- Parse one-or-more comma-separated object members and the closing
brace, in source order; Python-dict duplicate-key semantics are applied by
the caller via `dictMerge`. -/
def parseJObjItems : Nat → List Char → Option (List (String × JVal) × List Char)
  | 0, _ => none
  | fuel + 1, cs =>
    match cs.dropWhile jsonWs with
    | '"' :: rest =>
      match parseJStr (rest.length + 1) rest with
      | none => none
      | some (keyBody, afterKey) =>
        match afterKey.dropWhile jsonWs with
        | ':' :: afterColon =>
          match parseJVal fuel afterColon with
          | none => none
          | some (v, rest') =>
            match rest'.dropWhile jsonWs with
            | '\x7d' :: fin => some ([(String.mk keyBody, v)], fin)
            | ',' :: after =>
              match parseJObjItems fuel after with
              | some (kvs, fin) => some ((String.mk keyBody, v) :: kvs, fin)
              | none => none
            | _ => none
        | _ => none
    | _ => none

end

/-- Embedding of Python `json.loads(s)`: parse one value, then require
only trailing whitespace; `none` where Python raises `JSONDecodeError`. -/
def jsonLoads (s : String) : Option JVal :=
  let cs := s.toList
  match parseJVal (cs.length + 8) cs with
  | some (v, rest) => if (rest.dropWhile jsonWs).isEmpty then some v else none
  | none => none

/-! ## Embedding of `src/database.py` (`DatabaseManager`) -/

/-- The names bound at module scope of `src/database.py` (imports plus
top-level definitions), relevant to resolving the call
`get_db_client()` inside `create_analysis`. -/
def databaseModuleNames : List String :=
  ["os", "logging", "datetime", "Dict", "List", "Optional", "Any",
   "create_client", "Client", "json", "logger", "DatabaseManager", "db_manager"]

/-- The column names of the dict literal that `create_analysis` would pass
to `supabase.table('analyses').insert(...)` (database.py lines 68-81). -/
def create_analysis_insert_columns : List String :=
  ["segment", "product", "price", "target_audience", "revenue_goal",
   "marketing_budget", "launch_timeline", "competitors", "search_query",
   "additional_data", "analysis_results", "created_at"]

/-- Embedding of `DatabaseManager.create_analysis` (database.py lines
48-92).  Its first statement, `supabase = get_db_client()`, evaluates the
name `get_db_client`, which is neither defined nor imported in module
`database` (see `databaseModuleNames`; a function of that name exists only
in module `routes.analysis`), so Python raises `NameError` before the
insert dict is built; the enclosing `except Exception` returns `None`.
The function therefore returns the failure signal on every input. -/
def create_analysis (analysis_data : Dict) : Option JVal := none

/-- The allowlist `json_fields` of `DatabaseManager.get_analysis`
(database.py lines 128-132). -/
def json_fields : List String :=
  ["avatar_data", "positioning_data", "competition_data",
   "marketing_data", "metrics_data", "funnel_data",
   "market_intelligence", "action_plan", "comprehensive_analysis"]

/-- The per-field coercion loop of `get_analysis` (database.py lines
134-139): a field is replaced by its decoded JSON only when it is on the
allowlist, truthy, and a string whose text parses; `json.JSONDecodeError`
is swallowed (`pass`), keeping the stored string. -/
def decodeJsonField (key : String) (v : JVal) : JVal :=
  if json_fields.contains key then
    if pyTruthy v then
      match v with
      | .str s =>
        match jsonLoads s with
        | some w => w
        | none => .str s
      | _ => v
    else v
  else v

/-- Embedding of `DatabaseManager.get_analysis` (database.py lines
119-147).  The Supabase call `select('*').eq('id', analysis_id).execute()`
is abstracted as `backend`: an exception, or the list `result.data` of
matching rows.  Every backend exception and the no-row case return the
not-found signal `None`; a found row is returned with the allowlisted
string fields decoded in place. -/
def get_analysis (backend : Except String (List Dict)) : Option Dict :=
  match backend with
  | .error _ => none
  | .ok [] => none
  | .ok (row :: _) => some (row.map fun kv => (kv.1, decodeJsonField kv.1 kv.2))

/-! ## Embedding of `PDFGenerator.generate_analysis_report`
(`src/routes/pdf_generator.py`, lines 90-185)

The claims about the PDF renderer concern which document sections are
emitted, in which order, as a function of the input report mapping, and
whether building them raises.  The story is modelled at section
granularity: each `_build_*` helper contributes one `PdfSection` block,
and each helper's own Python operations that can raise — `.get` and
`.items()` on non-dict receivers, iteration, slicing, `", ".join` and
number formatting of ill-typed values — are transcribed as `Except`
steps.  Construction of flowables by the external PDF library
(`Paragraph`, `Table`, `doc.build`) is an external collaborator and is
not modelled. -/

inductive PdfSection where
  | cover
  | executiveSummary
  | avatar
  | drivers
  | antiObjection
  | visualProofs
  | prePitch
  | positioning
  | competition
  | marketing
  | metrics
  | projections
  | actionPlan
  | insights
  | research
deriving DecidableEq, Repr

/-- The fixed association between report keys and optional PDF sections,
in the order `generate_analysis_report` checks them. -/
def pdfOptionalSections : List (String × PdfSection) :=
  [("avatar_ultra_detalhado", .avatar),
   ("drivers_mentais_customizados", .drivers),
   ("sistema_anti_objecao", .antiObjection),
   ("provas_visuais_sugeridas", .visualProofs),
   ("pre_pitch_invisivel", .prePitch),
   ("escopo", .positioning),
   ("analise_concorrencia_detalhada", .competition),
   ("estrategia_palavras_chave", .marketing),
   ("metricas_performance_detalhadas", .metrics),
   ("projecoes_cenarios", .projections),
   ("plano_acao_detalhado", .actionPlan),
   ("insights_exclusivos", .insights),
   ("pesquisa_web_massiva", .research)]

/-- Raising behavior of `_build_cover_page` (pdf_generator.py lines
187-233): `data.get(...)` is safe on the dict input, but a truthy
non-dict `metadata` value raises at `metadata.get('generated_at', ...)`,
and a present non-sliceable `generated_at` raises at `generated_at[:10]`.
The wall-clock default `datetime.now().isoformat()` is a string whose
only observable property here is str-ness, so it is modelled as a fixed
string; the later `metadata.get(...)` calls repeat a receiver that
already survived `.get` and cannot add a failure. -/
def build_cover_page (data : Dict) : Except String Unit := do
  let metadata := (dictGet data "metadata").getD (.obj [])
  let ga ← pyDictGet metadata "generated_at"
  let generated_at := ga.getD (.str "1970-01-01T00:00:00")
  pySliceOk generated_at

/-- Raising behavior of `_build_executive_summary` (lines 234-262): the
`data.get(...)` f-strings are safe on the dict input; a truthy
`insights_exclusivos` value is sliced (`insights[:5]`), raising on a dict
or non-subscriptable value. -/
def build_executive_summary (data : Dict) : Except String Unit := do
  let insights := (dictGet data "insights_exclusivos").getD (.arr [])
  if pyTruthy insights then pySliceOk insights else .ok ()

/-- Raising behavior of `_build_avatar_section` (lines 263-318):
`avatar_data.get('perfil_demografico', {})` raises on a non-dict section
value; a truthy non-dict `perfil_demografico` raises at the `demo.get`
calls; a truthy non-dict `perfil_psicografico` raises at `.items()` (the
loop renders string keys and raises nothing further); truthy
`dores_especificas` and `desejos_profundos` must be iterable. -/
def build_avatar_section (avatar_data : JVal) : Except String Unit := do
  let demo ← pyDictGetD avatar_data "perfil_demografico" (.obj [])
  if pyTruthy demo then do
    let _ ← pyDictGet demo "idade"
  let psico ← pyDictGetD avatar_data "perfil_psicografico" (.obj [])
  if pyTruthy psico then do
    let _ ← pyItems psico
  let dores ← pyDictGetD avatar_data "dores_especificas" (.arr [])
  if pyTruthy dores then pyIterOk dores else .ok ()
  let desejos ← pyDictGetD avatar_data "desejos_profundos" (.arr [])
  if pyTruthy desejos then pyIterOk desejos else .ok ()

/-- Raising behavior of one driver entry of `_build_drivers_section`
(lines 333-352): non-dict entries are skipped (`isinstance`); a truthy
non-dict `roteiro_ativacao` raises at its `.get` calls; a truthy
`frases_ancoragem` must be iterable. -/
def build_driver_entry (driver : JVal) : Except String Unit :=
  match driver with
  | .obj kvs => do
    if (dictGet kvs "roteiro_ativacao").elim false pyTruthy then do
      let _ ← pyDictGet ((dictGet kvs "roteiro_ativacao").getD .null)
        "pergunta_abertura"
    if (dictGet kvs "frases_ancoragem").elim false pyTruthy then
      pyIterOk ((dictGet kvs "frases_ancoragem").getD .null)
    else .ok ()
  | _ => .ok ()

/-- `build_driver_entry` over the iterated entries. -/
def build_driver_entries : List JVal → Except String Unit
  | [] => .ok ()
  | d :: rest => do
    build_driver_entry d
    build_driver_entries rest

/-- Raising behavior of `_build_drivers_section` (lines 319-355): the
drivers are `drivers_data['drivers_customizados']` when the input is a
dict with that key, the input itself when it is a list, `[]` otherwise;
`enumerate(drivers, 1)` raises on a non-iterable value; only dict entries
of a list are rendered (iterating a string or a dict yields strings,
which are skipped). -/
def build_drivers_section (drivers_data : JVal) : Except String Unit := do
  let drivers :=
    match drivers_data with
    | .obj kvs =>
      if hasKey kvs "drivers_customizados" then
        (dictGet kvs "drivers_customizados").getD .null
      else .arr []
    | .arr xs => .arr xs
    | _ => .arr []
  pyIterOk drivers
  match drivers with
  | .arr xs => build_driver_entries xs
  | _ => .ok ()

/-- Raising behavior of `_build_anti_objection_section` (lines 356-386):
`anti_objection_data.get('objecoes_universais')` raises on a non-dict
section value (line 364); a truthy value there must be a dict for
`.items()` (the loop only renders `.get` fields of dict values, skipping
others by `isinstance`); the `objecoes_ocultas` block repeats the
pattern. -/
def build_anti_objection_section (anti_objection_data : JVal) :
    Except String Unit := do
  let ou ← pyDictGet anti_objection_data "objecoes_universais"
  if ou.elim false pyTruthy then do
    let _ ← pyItems (ou.getD .null)
  let oo ← pyDictGet anti_objection_data "objecoes_ocultas"
  if oo.elim false pyTruthy then do
    let _ ← pyItems (oo.getD .null)

/-- Raising behavior of one PROVI entry of `_build_visual_proofs_section`
(lines 396-409): non-dict entries are skipped; a truthy `materiais` must
be iterable. -/
def build_provi_entry (prova : JVal) : Except String Unit :=
  match prova with
  | .obj kvs =>
    if (dictGet kvs "materiais").elim false pyTruthy then
      pyIterOk ((dictGet kvs "materiais").getD .null)
    else .ok ()
  | _ => .ok ()

/-- `build_provi_entry` over the iterated entries. -/
def build_provi_entries : List JVal → Except String Unit
  | [] => .ok ()
  | p :: rest => do
    build_provi_entry p
    build_provi_entries rest

/-- Raising behavior of `_build_visual_proofs_section` (lines 387-410):
a non-list input builds nothing and cannot raise. -/
def build_visual_proofs_section (visual_proofs_data : JVal) :
    Except String Unit :=
  match visual_proofs_data with
  | .arr xs => build_provi_entries xs
  | _ => .ok ()

/-- Raising behavior of one phase entry of `_build_pre_pitch_section`
(lines 423-428): non-dict entries are skipped; a truthy `tecnicas` is
passed to `', '.join(...)`. -/
def build_fase_entry (fase : JVal) : Except String Unit :=
  match fase with
  | .obj kvs =>
    if (dictGet kvs "tecnicas").elim false pyTruthy then
      pyJoinOk ((dictGet kvs "tecnicas").getD .null)
    else .ok ()
  | _ => .ok ()

/-- `build_fase_entry` over the iterated entries. -/
def build_fase_entries : List JVal → Except String Unit
  | [] => .ok ()
  | f :: rest => do
    build_fase_entry f
    build_fase_entries rest

/-- Raising behavior of `_build_pre_pitch_section` (lines 411-447):
`pre_pitch_data.get('orquestracao_emocional')` raises on a non-dict
section value (line 419); a truthy value there raises at
`.get('sequencia_psicologica', [])` when it is not a dict, and the
sequence is iterated; a truthy `roteiro_completo` (line 432) and its
truthy `abertura`/`fechamento` values must likewise be dicts for their
`.get` calls. -/
def build_pre_pitch_section (pre_pitch_data : JVal) : Except String Unit := do
  let oe ← pyDictGet pre_pitch_data "orquestracao_emocional"
  if oe.elim false pyTruthy then do
    let seq ← pyDictGetD (oe.getD .null) "sequencia_psicologica" (.arr [])
    pyIterOk seq
    match seq with
    | .arr xs => build_fase_entries xs
    | _ => .ok ()
  let rc ← pyDictGet pre_pitch_data "roteiro_completo"
  if rc.elim false pyTruthy then do
    let ab ← pyDictGet (rc.getD .null) "abertura"
    if ab.elim false pyTruthy then do
      let _ ← pyDictGet (ab.getD .null) "tempo"
    let fe ← pyDictGet (rc.getD .null) "fechamento"
    if fe.elim false pyTruthy then do
      let _ ← pyDictGet (fe.getD .null) "tempo"

/-- Raising behavior of `_build_research_section` (lines 448-487):
`.get('total_queries', 0)` raises on a non-dict section value; the
`conteudo_extraido_chars` value is formatted with `f"\x7b...:,\x7d"`,
raising on strings and other non-numbers; a truthy `queries_executadas`
is sliced (`[:10]`). -/
def build_research_section (research_data : JVal) : Except String Unit := do
  let _ ← pyDictGet research_data "total_queries"
  let _ ← pyDictGet research_data "total_resultados"
  let chars ← pyDictGet research_data "conteudo_extraido_chars"
  pyFormatCommaOk (chars.getD (.num ⟨0, 0⟩))
  let qe ← pyDictGet research_data "queries_executadas"
  if qe.elim false pyTruthy then pySliceOk (qe.getD .null) else .ok ()

/-- Raising behavior of `_build_positioning_section` (lines 488-515):
`.get('posicionamento_mercado', '')` raises on a non-dict section value;
a truthy `diferenciais_competitivos` must be iterable (the two string
fields only feed paragraphs). -/
def build_positioning_section (escopo_data : JVal) : Except String Unit := do
  let _ ← pyDictGetD escopo_data "posicionamento_mercado" (.str "")
  let dif ← pyDictGetD escopo_data "diferenciais_competitivos" (.arr [])
  if pyTruthy dif then pyIterOk dif else .ok ()

/-- Raising behavior of one competitor entry of
`_build_competition_section` (lines 525-541): non-dict entries are
skipped; truthy `pontos_fortes`/`pontos_fracos` must be iterable. -/
def build_concorrente_entry (c : JVal) : Except String Unit :=
  match c with
  | .obj kvs => do
    let pf := (dictGet kvs "pontos_fortes").getD (.arr [])
    if pyTruthy pf then pyIterOk pf else .ok ()
    let fr := (dictGet kvs "pontos_fracos").getD (.arr [])
    if pyTruthy fr then pyIterOk fr else .ok ()
  | _ => .ok ()

/-- `build_concorrente_entry` over the iterated entries. -/
def build_concorrente_entries : List JVal → Except String Unit
  | [] => .ok ()
  | c :: rest => do
    build_concorrente_entry c
    build_concorrente_entries rest

/-- Raising behavior of `_build_competition_section` (lines 516-555):
`.get('concorrentes_diretos', [])` raises on a non-dict section value; a
truthy result is enumerated (raising when not iterable), with only dict
entries rendered; a truthy `gaps_oportunidade` must be iterable. -/
def build_competition_section (competition_data : JVal) :
    Except String Unit := do
  let diretos ← pyDictGetD competition_data "concorrentes_diretos" (.arr [])
  if pyTruthy diretos then do
    pyIterOk diretos
    match diretos with
    | .arr xs => build_concorrente_entries xs
    | _ => .ok ()
  let gaps ← pyDictGetD competition_data "gaps_oportunidade" (.arr [])
  if pyTruthy gaps then pyIterOk gaps else .ok ()

/-- Raising behavior of `_build_marketing_section` (lines 556-582):
`.get('palavras_primarias', [])` raises on a non-dict section value;
truthy keyword lists are joined with `", ".join(...)` — the secondary and
long-tail lists after slicing `[:15]`/`[:10]` — raising on non-iterable
values or non-string elements. -/
def build_marketing_section (marketing_data : JVal) : Except String Unit := do
  let prim ← pyDictGetD marketing_data "palavras_primarias" (.arr [])
  if pyTruthy prim then pyJoinOk prim else .ok ()
  let sec ← pyDictGetD marketing_data "palavras_secundarias" (.arr [])
  if pyTruthy sec then do
    pySliceOk sec
    pyJoinOk (pySliceTake 15 sec)
  let lt ← pyDictGetD marketing_data "long_tail" (.arr [])
  if pyTruthy lt then do
    pySliceOk lt
    pyJoinOk (pySliceTake 10 lt)

/-- Raising behavior of `_build_metrics_section` (lines 583-608):
`.get('kpis_principais', [])` raises on a non-dict section value; a
truthy result is iterated with only dict entries rendered; `roi_esperado`
feeds a paragraph with no further operations. -/
def build_metrics_section (metrics_data : JVal) : Except String Unit := do
  let kpis ← pyDictGetD metrics_data "kpis_principais" (.arr [])
  if pyTruthy kpis then pyIterOk kpis else .ok ()
  let _ ← pyDictGet metrics_data "roi_esperado"
  .ok ()

/-- Raising behavior of one scenario row of `_build_projections_section`
(lines 620-628): `.get(cenario, {})` raises on a non-dict section value;
a truthy non-dict scenario raises at its `.get` calls. -/
def build_projections_scenario (projections_data : JVal) (cen : String) :
    Except String Unit := do
  let cd ← pyDictGetD projections_data cen (.obj [])
  if pyTruthy cd then do
    let _ ← pyDictGet cd "receita_mensal"

/-- Raising behavior of `_build_projections_section` (lines 609-646): the
scenario keys checked are `conservador`, `realista` and `otimista` (which
the engine's `projecoes_cenarios` — keyed `cenario_conservador` etc. —
never populates). -/
def build_projections_section (projections_data : JVal) :
    Except String Unit := do
  build_projections_scenario projections_data "conservador"
  build_projections_scenario projections_data "realista"
  build_projections_scenario projections_data "otimista"

/-- Raising behavior of one phase of `_build_action_plan_section` (lines
656-671): `.get(fase, {})` raises on a non-dict section value; a truthy
non-dict phase raises at `.get('duracao', ...)`; a truthy `atividades`
must be iterable. -/
def build_action_plan_phase (action_data : JVal) (fase : String) :
    Except String Unit := do
  let fd ← pyDictGetD action_data fase (.obj [])
  if pyTruthy fd then do
    let _ ← pyDictGet fd "duracao"
    let atividades ← pyDictGetD fd "atividades" (.arr [])
    if pyTruthy atividades then pyIterOk atividades else .ok ()

/-- Raising behavior of `_build_action_plan_section` (lines 647-675). -/
def build_action_plan_section (action_data : JVal) : Except String Unit := do
  build_action_plan_phase action_data "fase_1_preparacao"
  build_action_plan_phase action_data "fase_2_lancamento"
  build_action_plan_phase action_data "fase_3_crescimento"

/-- Raising behavior of `_build_insights_section` (lines 676-684): the
input is enumerated directly, raising on a non-iterable value. -/
def build_insights_section (insights : JVal) : Except String Unit :=
  pyIterOk insights

/-- One guarded block of `generate_analysis_report`
(`if 'key' in analysis_data: story.extend(self._build_X(...))`): emits
the block's section exactly when the key is present, propagating whatever
the builder raises. -/
def sectionBlock (d : Dict) (key : String) (tag : PdfSection)
    (build : JVal → Except String Unit) : Except String (List PdfSection) :=
  match dictGet d key with
  | some v => do
    build v
    .ok [tag]
  | none => .ok []

/-- Embedding of `generate_analysis_report` (pdf_generator.py lines
90-185): cover page and executive summary unconditionally, then one
guarded block per optional key in the source's fixed order; the result is
the emitted section sequence, or the `str(e)` of the first exception a
`_build_*` helper raises. -/
def generate_analysis_report (analysis_data : Dict) :
    Except String (List PdfSection) := do
  build_cover_page analysis_data
  build_executive_summary analysis_data
  let s1 ← sectionBlock analysis_data "avatar_ultra_detalhado" .avatar
    build_avatar_section
  let s2 ← sectionBlock analysis_data "drivers_mentais_customizados" .drivers
    build_drivers_section
  let s3 ← sectionBlock analysis_data "sistema_anti_objecao" .antiObjection
    build_anti_objection_section
  let s4 ← sectionBlock analysis_data "provas_visuais_sugeridas" .visualProofs
    build_visual_proofs_section
  let s5 ← sectionBlock analysis_data "pre_pitch_invisivel" .prePitch
    build_pre_pitch_section
  let s6 ← sectionBlock analysis_data "escopo" .positioning
    build_positioning_section
  let s7 ← sectionBlock analysis_data "analise_concorrencia_detalhada"
    .competition build_competition_section
  let s8 ← sectionBlock analysis_data "estrategia_palavras_chave" .marketing
    build_marketing_section
  let s9 ← sectionBlock analysis_data "metricas_performance_detalhadas"
    .metrics build_metrics_section
  let s10 ← sectionBlock analysis_data "projecoes_cenarios" .projections
    build_projections_section
  let s11 ← sectionBlock analysis_data "plano_acao_detalhado" .actionPlan
    build_action_plan_section
  let s12 ← sectionBlock analysis_data "insights_exclusivos" .insights
    build_insights_section
  let s13 ← sectionBlock analysis_data "pesquisa_web_massiva" .research
    build_research_section
  .ok ([.cover, .executiveSummary] ++ s1 ++ s2 ++ s3 ++ s4 ++ s5 ++ s6 ++ s7 ++
    s8 ++ s9 ++ s10 ++ s11 ++ s12 ++ s13)

/-! ## Embedding of `UltraDetailedAnalysisEngine`
(`src/services/ultra_detailed_analysis_engine.py`)

External collaborators are oracles: `search` models
`production_search_manager.search_with_fallback(query, max_results=15)`,
`extract` models `production_content_extractor.extract_content(url)`
(both may raise, which the engine catches per query), and `llm` models
`ai_manager.generate_analysis(prompt, max_tokens)` indexed by the number
of prior LLM invocations — faithful because the engine issues its LLM
calls in one fixed sequence.  Stage exceptions are modelled as `Except`
errors carrying `str(e)`. -/

/-- Outcome of one `ai_manager.generate_analysis` call: an exception, or
the returned text (which may be empty, hence falsy). -/
inductive LLMResponse where
  | fail
  | text (s : String)
deriving Repr

/-- One recorded LLM invocation: the stage-specific `max_tokens` argument
and the dynamic fragments interpolated into the prompt (static prompt
text influences no modelled behavior and is not recorded). -/
structure LLMCall where
  maxTokens : Nat
  ctx : List String
deriving Repr, DecidableEq

/-- The external providers of one pipeline run. -/
structure Prov where
  search : JVal → Except Unit (List Dict)
  extract : JVal → Except Unit (Option String)
  llm : Nat → LLMResponse

/-- The wall-clock readings taken during `generate_gigantic_analysis`:
`end_time - start_time` and `datetime.utcnow().isoformat()`. -/
structure Clock where
  procTime : Dec
  generatedAt : String

/-- The engine's effect monad: threads the list of LLM calls made so far
and propagates uncaught Python exceptions (as their `str(e)`).  The call
list is part of the state, not the exception-free result, because in the
program the calls a run has issued persist when a later statement raises
(the top-level handler catches the exception after the calls happened). -/
def PipeM (α : Type) := List LLMCall → Except String α × List LLMCall

instance : Monad PipeM where
  pure a := fun log => (.ok a, log)
  bind x f := fun log =>
    match x log with
    | (.ok a, log') => f a log'
    | (.error e, log') => (.error e, log')

/-- Invoke the LLM oracle, recording the call. -/
def llmGenerate (env : Prov) (maxTokens : Nat) (ctx : List String) :
    PipeM LLMResponse :=
  fun log => (.ok (env.llm log.length), log ++ [⟨maxTokens, ctx⟩])

/-- Run an exception-only computation inside `PipeM`. -/
def liftE (x : Except String α) : PipeM α := fun log => (x, log)

/-- An uncaught Python exception. -/
def pyRaise (msg : String) : PipeM α := fun log => (.error msg, log)

/-- The `str(e)` of the `NameError` raised by evaluating the unbound name
`data` inside `_architect_invisible_pre_pitch`'s fallback paths. -/
def nameErrorData : String := "name 'data' is not defined"

/-- Python `str(d.get(key, dflt))` where `dflt` is a string literal. -/
def pyStrD (o : Option JVal) (dflt : String) : String :=
  match o with
  | none => dflt
  | some v => pyToStr v

/-- Embedding of Python `float(x)` on an arbitrary value; the error is the
`str` of the raised `ValueError`/`TypeError`. -/
def pyFloatOf : JVal → Except String Dec
  | .num q => .ok q
  | .bool b => .ok (if b then 1 else 0)
  | .str s =>
    match pyFloat s with
    | some d => .ok d
    | none => .error ("could not convert string to float: '" ++ s ++ "'")
  | v => .error ("float() argument must be a string or a real number, not '" ++
      pyTypeName v ++ "'")

/-- Embedding of Python `d[key]` subscripting on an embedded value. -/
def pyIndex (v : JVal) (key : String) : Except String JVal :=
  match v with
  | .obj kvs =>
    match dictGet kvs key with
    | some w => .ok w
    | none => .error ("KeyError: '" ++ key ++ "'")
  | w => .error ("'" ++ pyTypeName w ++ "' object is not subscriptable")

/-- Require a string value (as `.replace` does on a looked-up field). -/
def pyStrVal (v : JVal) : Except String String :=
  match v with
  | .str s => .ok s
  | w => .error ("'" ++ pyTypeName w ++ "' object has no attribute 'replace'")

/-- Embedding of the Python comparison `x > 0`. -/
def pyGtZero : JVal → Except String Bool
  | .num q => .ok (decide (0 < q.m))
  | .bool b => .ok b
  | v => .error ("'>' not supported between instances of '" ++ pyTypeName v ++
      "' and 'int'")

/-- The markdown-fence stripping of `_parse_json_response` (engine lines
1133-1143). -/
def clean_json_text (response : String) : String :=
  let clean := pyStrip response
  if pyContains clean "```json" then
    pyStrip (pySlice clean (((pyFindL "```json".toList clean.toList).getD 0) + 7)
      ((pyRfindL "```".toList clean.toList).getD 0))
  else if pyContains clean "```" then
    pyStrip (pySlice clean (((pyFindL "```".toList clean.toList).getD 0) + 3)
      ((pyRfindL "```".toList clean.toList).getD 0))
  else clean

/-- Embedding of `_parse_json_response` (engine lines 1130-1149):
`json.loads` on the cleaned text, returning `{}` on `JSONDecodeError`. -/
def parse_json_response (response : String) : JVal :=
  (jsonLoads (clean_json_text response)).getD (.obj [])

/-- Embedding of `_generate_fallback_avatar` (engine lines 1151-1180). -/
def generate_fallback_avatar (data : Dict) : JVal :=
  let segmento := pyStrD (dictGet data "segmento") "Negócios"
  .obj
    [("nome_ficticio", .str ("Profissional " ++ segmento ++ " Brasileiro")),
     ("perfil_demografico_detalhado", .obj
       [("idade", .str "30-45 anos - faixa de maior poder aquisitivo"),
        ("genero", .str "55% masculino, 45% feminino"),
        ("renda", .str "R$ 8.000 - R$ 35.000 - classe média alta"),
        ("escolaridade", .str "Superior completo - 78% têm graduação"),
        ("localizacao", .str "Grandes centros urbanos brasileiros")]),
     ("comportamento", .obj
       [("arquetipos_dominantes", .obj
         [("tecnico_aprisionado", .obj
           [("percentual", .str "30%"),
            ("descricao", .str "Profissional técnico preso na execução")]),
          ("escalador_frustrado", .obj
           [("percentual", .str "40%"),
            ("descricao", .str "Empreendedor estagnado no mesmo nível")]),
          ("visionario_sufocado", .obj
           [("percentual", .str "30%"),
            ("descricao", .str "Líder com visão mas equipe que não acompanha")])])])]

/-- Embedding of `_generate_fallback_drivers` (engine lines 1182-1194). -/
def generate_fallback_drivers (data : Dict) : JVal :=
  .arr
    [.obj
      [("nome", .str "Diagnóstico Brutal"),
       ("gatilho_central", .str "Confronto com realidade atual"),
       ("definicao_visceral", .str "Expor a situação real sem filtros"),
       ("roteiro_ativacao", .obj
         [("pergunta_abertura", .str ("Há quanto tempo você está no mesmo nível em " ++
            pyStrF (dictGet data "segmento") ++ "?")),
          ("comando_acao", .str "Pare de aceitar mediocridade")])]]

/-- Embedding of `_generate_fallback_anti_objection` (engine lines
1196-1209). -/
def generate_fallback_anti_objection (data : Dict) : JVal :=
  .obj
    [("objecoes_universais", .obj
      [("tempo", .obj
        [("objecao", .str "Não tenho tempo agora"),
         ("contra_ataque", .str "Tempo não é sobre ter, é sobre priorizar")]),
       ("dinheiro", .obj
        [("objecao", .str "Está caro"),
         ("contra_ataque", .str "Caro é continuar perdendo oportunidades")])])]

/-- Embedding of `_generate_fallback_provis` (engine lines 1211-1219). -/
def generate_fallback_provis (data : Dict) : JVal :=
  .arr
    [.obj
      [("nome", .str "Demonstração do Custo"),
       ("conceito_alvo", .str "Mostrar custo da inação"),
       ("experimento", .str "Calculadora mostrando perdas mensais")]]

/-- Embedding of `_generate_fallback_pre_pitch` (engine lines 1221-1233);
unreachable from the pipeline because both call sites evaluate the unbound
name `data` first, but embedded for completeness. -/
def generate_fallback_pre_pitch (data : Dict) : JVal :=
  .obj
    [("orquestracao_emocional", .obj
      [("sequencia_psicologica", .arr
        [.obj
          [("fase", .str "QUEBRA"),
           ("objetivo", .str "Despertar consciência"),
           ("tempo", .str "3 minutos")]])])]

/-- Embedding of `_generate_fallback_competition` (engine lines
1235-1247). -/
def generate_fallback_competition (data : Dict) : JVal :=
  .obj
    [("concorrentes_diretos", .arr
      [.obj
        [("nome", .str ("Concorrente Principal " ++ pyStrF (dictGet data "segmento"))),
         ("analise_swot", .obj
           [("forcas", .arr [.str "Marca estabelecida"]),
            ("fraquezas", .arr [.str "Processos lentos"])])]])]

/-- Embedding of `_generate_emergency_analysis` (engine lines 1249-1257). -/
def generate_emergency_analysis (data : Dict) (error : String) : JVal :=
  .obj
    [("avatar_ultra_detalhado", generate_fallback_avatar data),
     ("drivers_mentais_customizados", generate_fallback_drivers data),
     ("sistema_anti_objecao", generate_fallback_anti_objection data),
     ("error", .str error),
     ("status", .str "emergency_mode")]

/-- The ten templated research queries of `_perform_massive_web_research`
(engine lines 176-189); the base query is `data.get('query', ...)` with
an f-string default. -/
def research_queries (data : Dict) : List JVal :=
  let seg := pyStrF (dictGet data "segmento")
  [(dictGet data "query").getD (.str ("mercado " ++ seg ++ " Brasil")),
   .str ("análise mercado " ++ seg ++ " Brasil 2024 tendências"),
   .str ("concorrentes " ++ seg ++ " principais players"),
   .str ("público-alvo " ++ seg ++ " perfil demográfico"),
   .str ("preços " ++ seg ++ " ticket médio mercado"),
   .str ("oportunidades " ++ seg ++ " gaps mercado"),
   .str ("futuro " ++ seg ++ " projeções crescimento"),
   .str ("cases sucesso " ++ seg ++ " empresas brasileiras"),
   .str ("dados estatísticos " ++ seg ++ " IBGE pesquisas"),
   .str ("investimentos " ++ seg ++ " venture capital funding")]

/-- The per-query extraction loop of `_perform_massive_web_research`
(engine lines 199-204): walks `results[:5]`, setting
`result['extracted_content']` and adding `len(content)` for each truthy
extraction; a missing `'url'` key or an extractor exception aborts the
loop (the per-query `except` catches it), keeping mutations already
applied; results beyond the first five are untouched. -/
def extractTop5 (env : Prov) : Nat → List Dict → Nat → List Dict × Nat
  | _, [], acc => ([], acc)
  | 0, rest, acc => (rest, acc)
  | k + 1, r :: rest, acc =>
    match dictGet r "url" with
    | none => (r :: rest, acc)
    | some u =>
      match env.extract u with
      | .error _ => (r :: rest, acc)
      | .ok none =>
        let (rs, acc') := extractTop5 env k rest acc
        (r :: rs, acc')
      | .ok (some c) =>
        if c = "" then
          let (rs, acc') := extractTop5 env k rest acc
          (r :: rs, acc')
        else
          let (rs, acc') := extractTop5 env k rest (acc + c.length)
          (dictSet r "extracted_content" (.str c) :: rs, acc')

/-- One iteration of the research query loop (engine lines 194-210): a
search exception skips the query; otherwise the results are appended to
`all_results` (before extraction, sharing the dicts the extraction loop
mutates). -/
def researchQueryStep (env : Prov) (acc : List Dict × Nat) (q : JVal) :
    List Dict × Nat :=
  match env.search q with
  | .error _ => acc
  | .ok results =>
    let (processed, len') := extractTop5 env 5 results acc.2
    (acc.1 ++ processed, len')

/-- Embedding of `_perform_massive_web_research` (engine lines 172-218). -/
def perform_massive_web_research (env : Prov) (data : Dict) : JVal :=
  let queries := research_queries data
  let acc := queries.foldl (researchQueryStep env) ([], 0)
  .obj
    [("total_queries", .num ⟨(queries.length : Int), 0⟩),
     ("total_resultados", .num ⟨(acc.1.length : Int), 0⟩),
     ("conteudo_extraido_chars", .num ⟨(acc.2 : Int), 0⟩),
     ("resultados_detalhados", .arr (acc.1.map .obj)),
     ("queries_executadas", .arr queries)]

/-- Dynamic fragments of the avatar prompt (engine lines 230-237):
the request fields and `str(search_data.get('resultados_detalhados',
[]))[:5000]`. -/
def avatarPromptCtx (data : Dict) (search_data : JVal) : List String :=
  [pyStrF (dictGet data "segmento"),
   pyStrF (dictGet data "produto"),
   pyStrF (dictGet data "preco"),
   pyStrF (dictGet data "publico"),
   pyStrF (dictGet data "dados_adicionais"),
   pyTake 5000 (pyToStr (jgetD search_data "resultados_detalhados" (.arr [])))]

/-- Embedding of `_create_archaeological_avatar` (engine lines 220-374):
try the LLM with `max_tokens=8192`; a truthy response is parsed, an empty
response or an exception yields the fallback avatar. -/
def create_archaeological_avatar (env : Prov) (data : Dict)
    (search_data : JVal) : PipeM JVal := do
  let response ← llmGenerate env 8192 (avatarPromptCtx data search_data)
  match response with
  | .fail => pure (generate_fallback_avatar data)
  | .text t =>
    if t = "" then pure (generate_fallback_avatar data)
    else pure (parse_json_response t)

/-- The value the avatar stage stores, as a function of the first LLM
response of the run: the fallback dict on an exception or empty response,
otherwise the unchecked parse result (which need not be a dict). -/
def avatarValue (env : Prov) (data : Dict) : JVal :=
  match env.llm 0 with
  | .fail => generate_fallback_avatar data
  | .text t =>
    if t = "" then generate_fallback_avatar data else parse_json_response t

/-- The avatar section is a dict: the precondition under which engine line
1125 (`.get("comportamento")` on that section, in
`_generate_exclusive_insights`) does not raise `AttributeError`. -/
def AvatarOkB (env : Prov) (data : Dict) : Bool :=
  isDict (avatarValue env data)

/-- Dynamic fragments of the drivers prompt (engine lines 384-390):
`json.dumps(avatar_data, ensure_ascii=False, indent=2)[:3000]` and the
request fields. -/
def driversPromptCtx (avatar_data : JVal) (data : Dict) : List String :=
  [pyTake 3000 (jsonDumps avatar_data),
   pyStrF (dictGet data "segmento"),
   pyStrF (dictGet data "produto"),
   pyStrF (dictGet data "preco")]

/-- Embedding of `_generate_mental_drivers_system` (engine lines 376-445):
as the avatar stage, but a parse result that is not a list is replaced by
`[]` (`drivers if isinstance(drivers, list) else []`). -/
def generate_mental_drivers_system (env : Prov) (avatar_data : JVal)
    (data : Dict) : PipeM JVal := do
  let response ← llmGenerate env 8192 (driversPromptCtx avatar_data data)
  match response with
  | .fail => pure (generate_fallback_drivers data)
  | .text t =>
    if t = "" then pure (generate_fallback_drivers data)
    else
      match parse_json_response t with
      | .arr xs => pure (.arr xs)
      | _ => pure (.arr [])

/-- Dynamic fragment of the anti-objection prompt (engine lines 455-456):
`json.dumps(avatar_data, ensure_ascii=False, indent=2)[:3000]`. -/
def antiObjectionPromptCtx (avatar_data : JVal) : List String :=
  [pyTake 3000 (jsonDumps avatar_data)]

/-- Embedding of `_build_anti_objection_system` (engine lines 447-552). -/
def build_anti_objection_system (env : Prov) (avatar_data : JVal)
    (data : Dict) : PipeM JVal := do
  let response ← llmGenerate env 8192 (antiObjectionPromptCtx avatar_data)
  match response with
  | .fail => pure (generate_fallback_anti_objection data)
  | .text t =>
    if t = "" then pure (generate_fallback_anti_objection data)
    else pure (parse_json_response t)

/-- Dynamic fragments of the visual-proofs prompt (engine lines 562-568):
the request fields and `json.dumps(drivers_data, ...)[:2000]`. -/
def visualProofsPromptCtx (data : Dict) (drivers_data : JVal) : List String :=
  [pyStrF (dictGet data "segmento"),
   pyStrF (dictGet data "produto"),
   pyStrF (dictGet data "preco"),
   pyTake 2000 (jsonDumps drivers_data)]

/-- Embedding of `_create_visual_proofs_system` (engine lines 554-631):
as the drivers stage, with the `isinstance(provis, list)` check. -/
def create_visual_proofs_system (env : Prov) (data : Dict)
    (drivers_data : JVal) : PipeM JVal := do
  let response ← llmGenerate env 8192 (visualProofsPromptCtx data drivers_data)
  match response with
  | .fail => pure (generate_fallback_provis data)
  | .text t =>
    if t = "" then pure (generate_fallback_provis data)
    else
      match parse_json_response t with
      | .arr xs => pure (.arr xs)
      | _ => pure (.arr [])

/-- Dynamic fragments of the pre-pitch prompt (engine lines 641-645):
`json.dumps(drivers_data, ...)[:3000]` and
`json.dumps(avatar_data, ...)[:2000]`. -/
def prePitchPromptCtx (drivers_data avatar_data : JVal) : List String :=
  [pyTake 3000 (jsonDumps drivers_data),
   pyTake 2000 (jsonDumps avatar_data)]

/-- Embedding of `_architect_invisible_pre_pitch` (engine lines 633-757).
Both fallback call sites, `self._generate_fallback_pre_pitch(data)` at
lines 753 and 757, evaluate the name `data`, which is not bound in this
method (its parameters are `drivers_data` and `avatar_data`, and no
module-level `data` exists), so an empty response raises `NameError` in
the `else` branch, the `except` handler catches it and raises the same
`NameError` again from line 757; an LLM exception reaches line 757
directly.  Either way the `NameError` escapes to the pipeline level. -/
def architect_invisible_pre_pitch (env : Prov) (drivers_data avatar_data : JVal) :
    PipeM JVal := do
  let response ← llmGenerate env 8192 (prePitchPromptCtx drivers_data avatar_data)
  match response with
  | .fail => pyRaise nameErrorData
  | .text t =>
    if t = "" then pyRaise nameErrorData
    else pure (parse_json_response t)

/-- Dynamic fragments of the competition prompt (engine lines 767-772):
the request fields and `str(search_data.get('resultados_detalhados',
[]))[:4000]`. -/
def competitionPromptCtx (data : Dict) (search_data : JVal) : List String :=
  [pyStrF (dictGet data "segmento"),
   pyStrF (dictGet data "concorrentes"),
   pyTake 4000 (pyToStr (jgetD search_data "resultados_detalhados" (.arr [])))]

/-- Embedding of `_analyze_deep_competition` (engine lines 759-835), with
`max_tokens=6144`. -/
def analyze_deep_competition (env : Prov) (data : Dict)
    (search_data : JVal) : PipeM JVal := do
  let response ← llmGenerate env 6144 (competitionPromptCtx data search_data)
  match response with
  | .fail => pure (generate_fallback_competition data)
  | .text t =>
    if t = "" then pure (generate_fallback_competition data)
    else pure (parse_json_response t)

/-- Embedding of `_define_positioning_strategy` (engine lines 837-858):
a pure template construction; no LLM call, and the `avatar_data` and
`competition_data` parameters (and the `produto` local) are unused in the
source body as well. -/
def define_positioning_strategy (data : Dict)
    (avatar_data competition_data : JVal) : JVal :=
  let segmento := pyStrD (dictGet data "segmento") "Negócios"
  .obj
    [("posicionamento_mercado", .str ("Solução premium para profissionais de " ++
       segmento ++ " que querem resultados rápidos e sustentáveis")),
     ("proposta_valor", .str ("Transforme seu negócio em " ++ segmento ++
       " com metodologia comprovada e suporte especializado")),
     ("diferenciais_competitivos", .arr
       [.str ("Metodologia exclusiva testada no mercado de " ++ segmento),
        .str "Suporte personalizado e acompanhamento contínuo",
        .str "Resultados mensuráveis e garantidos",
        .str "Comunidade exclusiva de profissionais de alto nível",
        .str "Sistema anti-objeção e drivers mentais customizados"]),
     ("mensagem_central", .str ("Pare de trabalhar NO negócio de " ++ segmento ++
       " e comece a trabalhar PELO negócio")),
     ("tom_comunicacao", .str "Direto, confiante, baseado em resultados e dados concretos"),
     ("nicho_especifico", .str (segmento ++ " - Profissionais estabelecidos buscando escalonamento")),
     ("estrategia_oceano_azul", .str ("Criar categoria própria focada em implementação prática para " ++ segmento)),
     ("ancoragem_preco", .str "Investimento que se paga em 30-60 dias com ROI comprovado")]

/-- Embedding of `_create_keyword_strategy` (engine lines 860-923): a pure
template construction over `data.get('segmento', '').lower()`; a present
non-string `segmento` raises `AttributeError`. -/
def create_keyword_strategy (data : Dict) (search_data : JVal) :
    Except String JVal :=
  match (dictGet data "segmento").getD (.str "") with
  | .str s =>
    let segmento := pyLower s
    .ok (.obj
      [("palavras_primarias", .arr
        [.str segmento, .str "estratégia", .str "marketing", .str "crescimento",
         .str "vendas", .str "automação", .str "sistema", .str "resultado"]),
       ("palavras_secundarias", .arr
        [.str "digital", .str "online", .str "processo", .str "lucro",
         .str "receita", .str "cliente", .str "negócio", .str "empresa",
         .str "consultoria", .str "mentoria", .str "curso", .str "treinamento",
         .str "método", .str "técnica", .str "ferramenta"]),
       ("palavras_cauda_longa", .arr
        [.str ("como crescer no mercado de " ++ segmento),
         .str ("estratégias de marketing para " ++ segmento),
         .str ("como aumentar vendas em " ++ segmento),
         .str ("automação para " ++ segmento),
         .str ("sistema de vendas " ++ segmento),
         .str ("consultoria " ++ segmento ++ " resultados"),
         .str ("curso " ++ segmento ++ " online"),
         .str ("mentoria " ++ segmento ++ " especializada")]),
       ("intencao_busca", .obj
        [("informacional", .arr
          [.str ("o que é " ++ segmento),
           .str ("como funciona " ++ segmento),
           .str ("tendências " ++ segmento ++ " 2024")]),
         ("navegacional", .arr
          [.str ("especialista " ++ segmento),
           .str ("consultor " ++ segmento),
           .str ("curso " ++ segmento)]),
         ("transacional", .arr
          [.str ("comprar curso " ++ segmento),
           .str ("contratar consultoria " ++ segmento),
           .str ("mentoria " ++ segmento ++ " preço")])]),
       ("estrategia_conteudo", .str ("Criar conteúdo educativo sobre " ++ segmento ++
         " focando em resultados práticos e cases reais")),
       ("sazonalidade", .str "Maior busca no início do ano (janeiro-março) e final do ano (outubro-dezembro)"),
       ("oportunidades_seo", .str ("Pouca concorrência em nichos específicos de " ++ segmento ++
         " com foco em resultados mensuráveis"))])
  | v => .error ("'" ++ pyTypeName v ++ "' object has no attribute 'lower'")

/-- The template dict `_calculate_detailed_metrics` returns (engine lines
930-982), as a function of the computed `preco`. -/
def metricsTemplate (preco : Dec) : JVal :=
  .obj
    [("kpis_principais", .arr
      [.obj
        [("metrica", .str "Taxa de Conversão"), ("objetivo", .str "3-5%"),
         ("frequencia", .str "Semanal"), ("responsavel", .str "Equipe de Vendas")],
       .obj
        [("metrica", .str "Custo por Lead"),
         ("objetivo", .str ("R$ " ++ fmt2 (preco.mul ⟨1, -1⟩))),
         ("frequencia", .str "Diário"), ("responsavel", .str "Marketing")],
       .obj
        [("metrica", .str "Lifetime Value"),
         ("objetivo", .str ("R$ " ++ fmt2 (preco.mul (Dec.ofInt 3)))),
         ("frequencia", .str "Mensal"), ("responsavel", .str "CS")],
       .obj
        [("metrica", .str "ROI Marketing"), ("objetivo", .str "300-500%"),
         ("frequencia", .str "Mensal"), ("responsavel", .str "Marketing")]]),
     ("projecoes_financeiras", .obj
      [("cenario_conservador", .obj
        [("receita_mensal", .str ("R$ " ++ fmt2 (preco.mul (Dec.ofInt 10)))),
         ("clientes_mes", .str "10-15"),
         ("ticket_medio", .str ("R$ " ++ fmt2 preco)),
         ("margem_lucro", .str "60%")]),
       ("cenario_realista", .obj
        [("receita_mensal", .str ("R$ " ++ fmt2 (preco.mul (Dec.ofInt 25)))),
         ("clientes_mes", .str "25-35"),
         ("ticket_medio", .str ("R$ " ++ fmt2 preco)),
         ("margem_lucro", .str "70%")]),
       ("cenario_otimista", .obj
        [("receita_mensal", .str ("R$ " ++ fmt2 (preco.mul (Dec.ofInt 50)))),
         ("clientes_mes", .str "50-70"),
         ("ticket_medio", .str ("R$ " ++ fmt2 preco)),
         ("margem_lucro", .str "80%")])]),
     ("roi_esperado", .str "300-500% em 12 meses"),
     ("payback_investimento", .str "2-4 meses"),
     ("lifetime_value", .str ("R$ " ++ fmt2 (preco.mul (Dec.ofInt 3)))),
     ("churn_rate_esperado", .str "5-10% mensal"),
     ("crescimento_mensal", .str "15-25%")]

/-- Embedding of `_calculate_detailed_metrics` (engine lines 925-982):
`preco = float(data.get('preco', 997)) if data.get('preco') else 997`
(`float` of an unparsable value raises, escaping the stage), then the
template dict. -/
def calculate_detailed_metrics (data : Dict) (avatar_data : JVal) :
    Except String JVal := do
  let preco : Dec ←
    match dictGet data "preco" with
    | some v => if pyTruthy v then pyFloatOf v else .ok (Dec.ofInt 997)
    | none => .ok (Dec.ofInt 997)
  .ok (metricsTemplate preco)

/-- The repeated projection expression of `_generate_projections_scenarios`
(engine lines 994-1009): index
`metrics_data['projecoes_financeiras'][cenario]['receita_mensal']`, strip
`'R$ '` and `','`, `float` it, scale by `mult` and reformat. -/
def projRevenue (metrics_data : JVal) (cenario : String) (mult : Dec) :
    Except String JVal := do
  let pf ← pyIndex metrics_data "projecoes_financeiras"
  let cen ← pyIndex pf cenario
  let rm ← pyIndex cen "receita_mensal"
  let s ← pyStrVal rm
  let cleaned := pyReplace (pyReplace s "R$ " "") "," ""
  match pyFloat cleaned with
  | some d => .ok (.str ("R$ " ++ fmt2 (d.mul mult)))
  | none => .error ("could not convert string to float: '" ++ cleaned ++ "'")

/-- Embedding of `_generate_projections_scenarios` (engine lines
984-1025). -/
def generate_projections_scenarios (data : Dict) (metrics_data : JVal) :
    Except String JVal := do
  let pf ← pyIndex metrics_data "projecoes_financeiras"
  let cons ← pyIndex pf "cenario_conservador"
  let consAno1 ← pyIndex cons "receita_mensal"
  let consAno2 ← projRevenue metrics_data "cenario_conservador" ⟨15, -1⟩
  let consAno3 ← projRevenue metrics_data "cenario_conservador" ⟨225, -2⟩
  let real ← pyIndex pf "cenario_realista"
  let realAno1 ← pyIndex real "receita_mensal"
  let realAno2 ← projRevenue metrics_data "cenario_realista" (Dec.ofInt 2)
  let realAno3 ← projRevenue metrics_data "cenario_realista" (Dec.ofInt 4)
  let otim ← pyIndex pf "cenario_otimista"
  let otimAno1 ← pyIndex otim "receita_mensal"
  let otimAno2 ← projRevenue metrics_data "cenario_otimista" (Dec.ofInt 3)
  let otimAno3 ← projRevenue metrics_data "cenario_otimista" (Dec.ofInt 9)
  .ok (.obj
    [("horizonte_temporal", .str "36 meses"),
     ("cenarios", .obj
      [("conservador", .obj
        [("probabilidade", .str "30%"),
         ("crescimento_anual", .str "50%"),
         ("receita_ano_1", consAno1),
         ("receita_ano_2", consAno2),
         ("receita_ano_3", consAno3)]),
       ("realista", .obj
        [("probabilidade", .str "50%"),
         ("crescimento_anual", .str "100%"),
         ("receita_ano_1", realAno1),
         ("receita_ano_2", realAno2),
         ("receita_ano_3", realAno3)]),
       ("otimista", .obj
        [("probabilidade", .str "20%"),
         ("crescimento_anual", .str "200%"),
         ("receita_ano_1", otimAno1),
         ("receita_ano_2", otimAno2),
         ("receita_ano_3", otimAno3)])]),
     ("fatores_criticos", .arr
      [.str "Qualidade da execução do plano",
       .str "Consistência nas ações de marketing",
       .str "Capacidade de escalar operações",
       .str "Adaptação às mudanças do mercado"]),
     ("marcos_importantes", .obj
      [("mes_3", .str "Primeiros resultados consistentes"),
       ("mes_6", .str "Break-even operacional"),
       ("mes_12", .str "Escalabilidade comprovada"),
       ("mes_24", .str "Dominância no nicho"),
       ("mes_36", .str "Expansão para novos mercados")])])

/-- Embedding of `_create_detailed_action_plan` (engine lines 1027-1103):
a fully static template; both parameters are unused in the source body. -/
def create_detailed_action_plan (data : Dict) (analysis_result : Dict) : JVal :=
  .obj
    [("fase_1_preparacao", .obj
      [("duracao", .str "30 dias"),
       ("foco", .str "Estruturação e planejamento"),
       ("investimento", .str "R$ 5.000 - R$ 15.000"),
       ("atividades", .arr
        [.str "Implementar avatar arqueológico na comunicação",
         .str "Instalar drivers mentais no conteúdo",
         .str "Criar sistema anti-objeção",
         .str "Desenvolver provas visuais",
         .str "Estruturar pré-pitch invisível"]),
       ("entregas", .arr
        [.str "Avatar documentado e validado",
         .str "Drivers mentais customizados",
         .str "Sistema anti-objeção implementado",
         .str "Provas visuais criadas",
         .str "Pré-pitch estruturado"]),
       ("responsaveis", .arr
        [.str "Especialista em psicologia de vendas",
         .str "Designer de experiências",
         .str "Copywriter especializado"])]),
     ("fase_2_lancamento", .obj
      [("duracao", .str "60 dias"),
       ("foco", .str "Implementação e otimização"),
       ("investimento", .str "R$ 10.000 - R$ 30.000"),
       ("atividades", .arr
        [.str "Executar campanhas com drivers mentais",
         .str "Testar provas visuais em eventos",
         .str "Aplicar sistema anti-objeção",
         .str "Otimizar pré-pitch baseado em feedback",
         .str "Medir e ajustar conversões"]),
       ("entregas", .arr
        [.str "Campanhas ativas com drivers",
         .str "Eventos com provas visuais",
         .str "Sistema anti-objeção funcionando",
         .str "Pré-pitch otimizado",
         .str "Métricas de conversão"]),
       ("responsaveis", .arr
        [.str "Equipe de marketing",
         .str "Especialista em eventos",
         .str "Analista de conversão"])]),
     ("fase_3_crescimento", .obj
      [("duracao", .str "90+ dias"),
       ("foco", .str "Escala e expansão"),
       ("investimento", .str "R$ 20.000 - R$ 50.000"),
       ("atividades", .arr
        [.str "Escalar campanhas que funcionam",
         .str "Expandir para novos canais",
         .str "Treinar equipe nos sistemas",
         .str "Desenvolver novos drivers",
         .str "Criar parcerias estratégicas"]),
       ("entregas", .arr
        [.str "Crescimento sustentável",
         .str "Novos canais ativos",
         .str "Equipe treinada",
         .str "Novos drivers desenvolvidos",
         .str "Parcerias estabelecidas"]),
       ("responsaveis", .arr
        [.str "Gerente de crescimento",
         .str "Equipe comercial",
         .str "Parceiros estratégicos"])])]

/-- Embedding of `_generate_exclusive_insights` (engine lines 1105-1128):
ten fixed insight strings plus two conditional ones driven by the
accumulated `analysis_result`.  The two condition expressions call
`.get(...)` on `analysis_result.get("pesquisa_web_massiva", {})` (line
1122) and on `analysis_result.get("avatar_ultra_detalhado", {})` (line
1125) with no enclosing handler: a truthy non-dict section value there
raises `AttributeError`, aborting the run to the emergency path. -/
def generate_exclusive_insights (analysis_result : Dict) (data : Dict) :
    Except String JVal := do
  let insights : List JVal :=
    [.str ("🎯 Avatar Arqueológico: O perfil de " ++ pyStrF (dictGet data "segmento") ++
       " apresenta 3 arquétipos dominantes que requerem abordagens específicas"),
     .str "🧠 Drivers Mentais: Os 7 drivers customizados criados atacam as objeções mais profundas identificadas no avatar",
     .str "🛡️ Sistema Anti-Objeção: 5 objeções ocultas foram mapeadas além das 3 universais, com contra-ataques específicos",
     .str "🎭 Provas Visuais: Demonstrações físicas transformam conceitos abstratos em experiências inesquecíveis",
     .str "🎯 Pré-Pitch Invisível: Sequência psicológica de 6 fases prepara o terreno mental antes da oferta",
     .str ("⚔️ Concorrência: Identificados gaps específicos no mercado de " ++
       pyStrF (dictGet data "segmento") ++ " não explorados"),
     .str "📈 Métricas: Projeções baseadas em dados reais mostram potencial de crescimento exponencial",
     .str "🔮 Futuro: Tendências identificadas indicam janela de oportunidade única nos próximos 18 meses",
     .str "💰 ROI: Sistema completo pode gerar retorno de 300-500% em 12 meses baseado em métricas conservadoras",
     .str "🚀 Implementação: Plano de 3 fases garante execução progressiva sem sobrecarga operacional"]
  let pesquisa := (dictGet analysis_result "pesquisa_web_massiva").getD (.obj [])
  let tot ← pyDictGet pesquisa "total_resultados"
  let gt ← pyGtZero (tot.getD (.num ⟨0, 0⟩))
  let insights :=
    if gt then
      insights ++ [.str ("🌐 Pesquisa Massiva: " ++
        pyStrF tot ++
        " resultados analisados garantem base sólida de dados reais")]
    else insights
  let avatar := (dictGet analysis_result "avatar_ultra_detalhado").getD (.obj [])
  let comportamento ← pyDictGet avatar "comportamento"
  let insights :=
    if comportamento.elim false pyTruthy then
      insights ++ [.str "👥 Comportamento: Padrões psicológicos identificados permitem previsão precisa de objeções e reações"]
    else insights
  .ok (.arr insights)

/-- The stage sequence of `generate_gigantic_analysis` (engine lines
54-146): the 13 stages in order, each result assigned into
`analysis_result` under its section key.  The advisory progress callback
does not affect the outcome and is not modelled. -/
def pipelineCore (env : Prov) (data : Dict) : PipeM Dict := do
  let search_data := perform_massive_web_research env data
  let r := dictSet [] "pesquisa_web_massiva" search_data
  let avatar_data ← create_archaeological_avatar env data search_data
  let r := dictSet r "avatar_ultra_detalhado" avatar_data
  let drivers_data ← generate_mental_drivers_system env avatar_data data
  let r := dictSet r "drivers_mentais_customizados" drivers_data
  let anti_objection_data ← build_anti_objection_system env avatar_data data
  let r := dictSet r "sistema_anti_objecao" anti_objection_data
  let visual_proofs_data ← create_visual_proofs_system env data drivers_data
  let r := dictSet r "provas_visuais_sugeridas" visual_proofs_data
  let pre_pitch_data ← architect_invisible_pre_pitch env drivers_data avatar_data
  let r := dictSet r "pre_pitch_invisivel" pre_pitch_data
  let competition_data ← analyze_deep_competition env data search_data
  let r := dictSet r "analise_concorrencia_detalhada" competition_data
  let positioning_data := define_positioning_strategy data avatar_data competition_data
  let r := dictSet r "escopo" positioning_data
  let keywords_data ← liftE (create_keyword_strategy data search_data)
  let r := dictSet r "estrategia_palavras_chave" keywords_data
  let metrics_data ← liftE (calculate_detailed_metrics data avatar_data)
  let r := dictSet r "metricas_performance_detalhadas" metrics_data
  let projections_data ← liftE (generate_projections_scenarios data metrics_data)
  let r := dictSet r "projecoes_cenarios" projections_data
  let action_plan_data := create_detailed_action_plan data r
  let r := dictSet r "plano_acao_detalhado" action_plan_data
  let insights_data ← liftE (generate_exclusive_insights r data)
  let r := dictSet r "insights_exclusivos" insights_data
  pure r

/-- The final `analysis_result["metadata"]` entry (engine lines 150-163). -/
def engineMetadata (clock : Clock) : JVal :=
  .obj
    [("processing_time_seconds", .num clock.procTime),
     ("analysis_engine", .str "ARQV30 Enhanced v2.0 - GIGANTE MODE"),
     ("generated_at", .str clock.generatedAt),
     ("quality_score", .num ⟨999, -1⟩),
     ("completeness_level", .str "MAXIMUM"),
     ("systems_implemented", .arr
       [.str "Dashboard do Avatar",
        .str "19 Drivers Mentais Universais",
        .str "Sistema Anti-Objeção",
        .str "Provas Visuais Instantâneas",
        .str "Pré-Pitch Invisível"])]

/-- Embedding of `generate_gigantic_analysis` (engine lines 43-170): run
the stage sequence, append the metadata on success; any stage exception
is caught by the top-level handler, which returns
`_generate_emergency_analysis(data, str(e))`. -/
def generate_gigantic_analysis (env : Prov) (clock : Clock) (data : Dict) : JVal :=
  match (pipelineCore env data []).1 with
  | .ok r => .obj (dictSet r "metadata" (engineMetadata clock))
  | .error e => generate_emergency_analysis data e

/-- The sequence of LLM calls a pipeline run performs — also when a later
stage raises and the run degrades to the emergency result, since the
calls already issued are part of the run either way. -/
def generate_gigantic_analysis_log (env : Prov) (data : Dict) : List LLMCall :=
  (pipelineCore env data []).2

/-! ## Embedding of `analyze_market` (`src/routes/analysis.py`, lines
29-162)

The Flask request is abstracted to `Option JVal`: `some v` is the value
`request.get_json()` returns for a parseable JSON body, `none` is the
case where `get_json()` raises (no body, wrong content type, or
unparseable JSON; Flask raises a `BadRequest`/`UnsupportedMediaType`
`HTTPException`, which the handler's own `except Exception` catches).
The response is the status code, the `jsonify`d body, and a flag
recording whether `generate_gigantic_analysis` was invoked. -/

/-- Per-request route environment: the engine's providers and clock, the
route's own timing/timestamps, and the generated fallback session id
(`f"session_{int(time.time())}_{os.urandom(4).hex()}"`). -/
structure RouteEnv where
  prov : Prov
  clock : Clock
  routeProcTime : Dec
  nowIso : String
  sessionRand : String

/-- An HTTP response from the route, plus whether the pipeline ran. -/
structure RouteResult where
  status : Nat
  body : JVal
  pipelineInvoked : Bool

/-- Truncate a decimal toward zero (Python `int(x)`). -/
def Dec.truncInt (a : Dec) : Int :=
  if 0 ≤ a.e then a.m * pow10 a.e.toNat
  else Int.tdiv a.m (pow10 (-a.e).toNat)

/-- Subtract an integer from a decimal. -/
def Dec.subInt (a : Dec) (k : Int) : Dec :=
  if 0 ≤ a.e then ⟨a.m * pow10 a.e.toNat - k, 0⟩
  else ⟨a.m - k * pow10 (-a.e).toNat, a.e⟩

/-- The route's `f"{int(processing_time // 60)}m {int(processing_time % 60)}s"`. -/
def fmtMinSec (t : Dec) : String :=
  let q := t.fdivInt 60
  intStr q ++ "m " ++ intStr (t.subInt (60 * q)).truncInt ++ "s"

/-- The `str(e)` of the `HTTPException` Flask's `request.get_json()`
raises when the request carries no parseable JSON body. -/
def getJsonErrorMsg : String :=
  "400 Bad Request: The browser (or proxy) sent a request that the server could not understand."

/-- The 500 body produced by the route's outer exception handler
(analysis.py lines 156-162). -/
def analyzeErrorBody (env : RouteEnv) (msg : String) : JVal :=
  .obj
    [("error", .str "Erro na análise"),
     ("message", .str msg),
     ("timestamp", .str env.nowIso),
     ("fallback_available", .bool true),
     ("recommendation", .str "Tente novamente ou verifique as configurações das APIs")]

/-- The dict the route passes to `db_manager.create_analysis`
(analysis.py lines 96-117). -/
def routeDbPayload (data : Dict) (analysis_result : JVal) : Dict :=
  [("segmento", (dictGet data "segmento").getD .null),
   ("produto", (dictGet data "produto").getD .null),
   ("descricao", (dictGet data "dados_adicionais").getD .null),
   ("preco", (dictGet data "preco").getD .null),
   ("publico", (dictGet data "publico").getD .null),
   ("concorrentes", (dictGet data "concorrentes").getD .null),
   ("dados_adicionais", (dictGet data "dados_adicionais").getD .null),
   ("objetivo_receita", (dictGet data "objetivo_receita").getD .null),
   ("orcamento_marketing", (dictGet data "orcamento_marketing").getD .null),
   ("prazo_lancamento", (dictGet data "prazo_lancamento").getD .null),
   ("status", .str "completed"),
   ("avatar_data", (jget analysis_result "avatar_ultra_detalhado").getD .null),
   ("positioning_data", (jget analysis_result "escopo").getD .null),
   ("competition_data", (jget analysis_result "analise_concorrencia_detalhada").getD .null),
   ("marketing_data", (jget analysis_result "estrategia_palavras_chave").getD .null),
   ("metrics_data", (jget analysis_result "metricas_performance_detalhadas").getD .null),
   ("funnel_data", (jget analysis_result "funil_vendas_detalhado").getD .null),
   ("market_intelligence", (jget analysis_result "pesquisa_web_massiva").getD .null),
   ("action_plan", (jget analysis_result "plano_acao_detalhado").getD .null),
   ("comprehensive_analysis", analysis_result)]

/-- The entries the route merges into `analysis_result['metadata']`
(analysis.py lines 137-147). -/
def routeMetadataUpdate (env : RouteEnv) (data : Dict) : Dict :=
  [("processing_time_seconds", .num env.routeProcTime),
   ("processing_time_formatted", .str (fmtMinSec env.routeProcTime)),
   ("request_timestamp", .str env.nowIso),
   ("session_id", (dictGet data "session_id").getD .null),
   ("input_data", .obj
     [("segmento", (dictGet data "segmento").getD .null),
      ("produto", (dictGet data "produto").getD .null),
      ("query", (dictGet data "query").getD .null)])]

/-- The database-save block of the route (analysis.py lines 94-127):
`create_analysis` always returns the failure signal (its body hits a
`NameError`, see `create_analysis`), so `database_id` is never attached;
and even a truthy id `db_record` would be subscripted as
`db_record['id']`, raising `TypeError` into the inner `except`, which
only logs.  Either way `analysis_result` is returned unchanged. -/
def routeSaveToDb (data : Dict) (analysis_result : JVal) : JVal :=
  match create_analysis (routeDbPayload data analysis_result) with
  | some dbRecord =>
    if pyTruthy dbRecord then
      analysis_result
    else analysis_result
  | none => analysis_result

/-- The metadata-update block of the route (analysis.py lines 134-147). -/
def routeAttachMetadata (env : RouteEnv) (data : Dict)
    (analysis_result : JVal) : Except String JVal :=
  match analysis_result with
  | .obj kvs =>
    let kvs := if hasKey kvs "metadata" then kvs else dictSet kvs "metadata" (.obj [])
    match dictGet kvs "metadata" with
    | some (.obj mkvs) =>
      .ok (.obj (dictSet kvs "metadata" (.obj (dictMerge mkvs (routeMetadataUpdate env data)))))
    | some v => .error ("'" ++ pyTypeName v ++ "' object has no attribute 'update'")
    | none => .error "KeyError: 'metadata'"
  | v => .error ("'" ++ pyTypeName v ++ "' object is not subscriptable")

/-- Embedding of the `POST /analyze` handler `analyze_market` (analysis.py
lines 29-162). -/
def analyze_market (env : RouteEnv) (body : Option JVal) : RouteResult :=
  match body with
  | none => ⟨500, analyzeErrorBody env getJsonErrorMsg, false⟩
  | some dataJ =>
    if ¬ pyTruthy dataJ then
      ⟨400, .obj
        [("error", .str "Dados não fornecidos"),
         ("message", .str "Envie os dados da análise no corpo da requisição")], false⟩
    else
      match dataJ with
      | .obj kvs =>
        if ¬ (dictGet kvs "segmento").elim false pyTruthy then
          ⟨400, .obj
            [("error", .str "Segmento obrigatório"),
             ("message", .str "O campo \"segmento\" é obrigatório para análise")], false⟩
        else
          let kvs :=
            if ¬ (dictGet kvs "session_id").elim false pyTruthy then
              dictSet kvs "session_id" (.str env.sessionRand)
            else kvs
          let kvs :=
            if ¬ (dictGet kvs "query").elim false pyTruthy then
              let segmento := pyStrD (dictGet kvs "segmento") ""
              let produto := (dictGet kvs "produto").getD (.str "")
              if pyTruthy produto then
                dictSet kvs "query" (.str ("mercado " ++ segmento ++ " " ++
                  pyToStr produto ++ " Brasil tendências oportunidades 2024"))
              else
                dictSet kvs "query" (.str ("análise mercado " ++ segmento ++
                  " Brasil dados estatísticas crescimento"))
            else kvs
          let analysis_result := generate_gigantic_analysis env.prov env.clock kvs
          if ¬ pyTruthy analysis_result ∨ ¬ isDict analysis_result then
            ⟨500, analyzeErrorBody env "Análise retornou resultado inválido", true⟩
          else
            let analysis_result := routeSaveToDb kvs analysis_result
            match routeAttachMetadata env kvs analysis_result with
            | .ok result => ⟨200, result, true⟩
            | .error e => ⟨500, analyzeErrorBody env e, true⟩
      | v =>
        ⟨500, analyzeErrorBody env ("'" ++ pyTypeName v ++ "' object has no attribute 'get'"),
          false⟩

/-! ## Derived observations and fixtures used by the theorems -/

/-- Top-level key presence on a JSON value. -/
def hasKeyJ (v : JVal) (k : String) : Bool := (jget v k).isSome

/-- The key-value list of a dict result (`[]` for a non-dict). -/
def asDict : JVal → Dict
  | .obj kvs => kvs
  | _ => []

/-- The thirteen documented section keys, in pipeline order. -/
def sections13 : List String :=
  ["pesquisa_web_massiva", "avatar_ultra_detalhado",
   "drivers_mentais_customizados", "sistema_anti_objecao",
   "provas_visuais_sugeridas", "pre_pitch_invisivel",
   "analise_concorrencia_detalhada", "escopo", "estrategia_palavras_chave",
   "metricas_performance_detalhadas", "projecoes_cenarios",
   "plano_acao_detalhado", "insights_exclusivos"]

/-- The full fixed order of PDF sections. -/
def pdfFullOrder : List PdfSection :=
  [.cover, .executiveSummary, .avatar, .drivers, .antiObjection, .visualProofs,
   .prePitch, .positioning, .competition, .marketing, .metrics, .projections,
   .actionPlan, .insights, .research]

/-- Whether an `Except` is a success. -/
def exceptOk : Except ε α → Bool
  | .ok _ => true
  | .error _ => false

/-- A present `segmento` request field is a string (or absent): the
condition under which `_create_keyword_strategy` does not raise. -/
def SegOkB (data : Dict) : Bool :=
  match (dictGet data "segmento").getD (.str "") with
  | .str _ => true
  | _ => false

/-- A truthy `preco` request field converts with `float(...)` (or is
absent/falsy): the condition under which `_calculate_detailed_metrics`
does not raise. -/
def PrecoOkB (data : Dict) : Bool :=
  match dictGet data "preco" with
  | none => true
  | some v => if pyTruthy v then exceptOk (pyFloatOf v) else true

/-- The `generated_at` string in a result's metadata (empty if absent). -/
def metaGeneratedAt (v : JVal) : String :=
  match jget (jgetD v "metadata" (.obj [])) "generated_at" with
  | some (.str s) => s
  | _ => ""

/-- Fixture: providers whose searches and extractions fail and whose LLM
always returns the non-empty non-JSON text `"this is not json"`. -/
def provNonJson : Prov :=
  ⟨fun _ => .error (), fun _ => .error (), fun _ => .text "this is not json"⟩

/-- Fixture: as `provNonJson` but the fifth LLM call (the pre-pitch
stage's) raises. -/
def provFailAt4 : Prov :=
  ⟨fun _ => .error (), fun _ => .error (),
   fun i => if i = 4 then .fail else .text "this is not json"⟩

/-- Fixture: providers whose LLM always raises. -/
def provAllFail : Prov :=
  ⟨fun _ => .error (), fun _ => .error (), fun _ => .fail⟩

/-- Fixture: as `provNonJson` but the first LLM call (the avatar stage's)
returns the valid-JSON list text `"[1]"`. -/
def provAvatarList : Prov :=
  ⟨fun _ => .error (), fun _ => .error (),
   fun i => if i = 0 then .text "[1]" else .text "this is not json"⟩

/-- Fixture: as `provNonJson` but the fifth LLM call (the pre-pitch
stage's) returns the valid-JSON list text `"[1]"`. -/
def provPrePitchList : Prov :=
  ⟨fun _ => .error (), fun _ => .error (),
   fun i => if i = 4 then .text "[1]" else .text "this is not json"⟩

/-- Fixture clock. -/
def clockA : Clock := ⟨⟨5, 0⟩, "2024-01-01T00:00:00"⟩

/-- Fixture clock with a different timestamp. -/
def clockB : Clock := ⟨⟨7, 0⟩, "2024-01-02T12:34:56"⟩

/-- Fixture request data. -/
def dataA : Dict := [("segmento", .str "Produtos Digitais")]

/-- Fixture route environment. -/
def renvA : RouteEnv := ⟨provNonJson, clockA, ⟨61, 0⟩, "2024-01-01T00:00:05", "session_1_ab"⟩

/-! ## Supporting lemmas: dictionaries -/

theorem dictGet_dictSet_self (d : Dict) (k : String) (v : JVal) :
    dictGet (dictSet d k v) k = some v := by
  induction d with
  | nil => simp [dictSet, dictGet]
  | cons kv tl ih =>
    obtain ⟨k', w⟩ := kv
    by_cases h : k' = k
    · simp [dictSet, dictGet, h]
    · simp [dictSet, dictGet, h, ih]

theorem dictGet_dictSet_ne (d : Dict) {k k' : String} (v : JVal) (h : k ≠ k') :
    dictGet (dictSet d k' v) k = dictGet d k := by
  induction d with
  | nil =>
    have : k' ≠ k := fun hh => h hh.symm
    simp [dictSet, dictGet, this]
  | cons kv tl ih =>
    obtain ⟨k'', w⟩ := kv
    by_cases h2 : k'' = k'
    · subst h2
      have : k'' ≠ k := fun hh => h hh.symm
      simp [dictSet, dictGet, this]
    · simp [dictSet, dictGet, h2, ih]

theorem dictSet_eq_append {d : Dict} {k : String} (v : JVal)
    (h : hasKey d k = false) : dictSet d k v = d ++ [(k, v)] := by
  induction d with
  | nil => simp [dictSet]
  | cons kv tl ih =>
    obtain ⟨k', w⟩ := kv
    have h' : k' ≠ k := by
      intro hh
      simp [hasKey, dictGet, hh] at h
    have htl : hasKey tl k = false := by
      simpa [hasKey, dictGet, h'] using h
    simp [dictSet, h', ih htl]

/-! ## Supporting lemmas: characters, digits, and `float` round-trips -/

theorem digitChar_isDigit (d : Nat) : (digitChar d).isDigit = true := by
  unfold digitChar
  have hk : d % 10 < 10 := Nat.mod_lt _ (by norm_num)
  set k := d % 10 with hkdef
  clear_value k
  interval_cases k <;> decide

theorem natDigitsAux_digits :
    ∀ fuel n, ∀ c ∈ natDigitsAux fuel n, c.isDigit = true := by
  intro fuel
  induction fuel with
  | zero => intro n c hc; simp [natDigitsAux] at hc
  | succ f ih =>
    intro n c hc
    by_cases hn : n = 0
    · simp [natDigitsAux, hn] at hc
    · simp only [natDigitsAux, hn, if_false, List.mem_append] at hc
      rcases hc with hc | hc
      · exact ih _ c hc
      · simp at hc
        subst hc
        exact digitChar_isDigit _

theorem natDigits_digits (n : Nat) : ∀ c ∈ natDigits n, c.isDigit = true := by
  intro c hc
  unfold natDigits at hc
  by_cases hn : n = 0
  · simp [hn] at hc
    subst hc; decide
  · simp [hn] at hc
    exact natDigitsAux_digits _ _ c hc

theorem natDigits_ne_nil (n : Nat) : natDigits n ≠ [] := by
  unfold natDigits
  by_cases hn : n = 0
  · simp [hn]
  · simp only [hn, if_false]
    unfold natDigitsAux
    simp [hn]

theorem takeWhile_append_of_all {p : Char → Bool} {xs ys : List Char}
    (h : ∀ x ∈ xs, p x = true) :
    (xs ++ ys).takeWhile p = xs ++ ys.takeWhile p := by
  induction xs with
  | nil => simp
  | cons a tl ih =>
    have ha := h a (by simp)
    simp [List.takeWhile_cons, ha]
    exact ih fun x hx => h x (by simp [hx])

theorem dropWhile_append_of_all {p : Char → Bool} {xs ys : List Char}
    (h : ∀ x ∈ xs, p x = true) :
    (xs ++ ys).dropWhile p = ys.dropWhile p := by
  induction xs with
  | nil => simp
  | cons a tl ih =>
    have ha := h a (by simp)
    simp [List.dropWhile_cons, ha]
    exact ih fun x hx => h x (by simp [hx])

theorem takeWhile_cons_of_neg {p : Char → Bool} {a : Char} {tl : List Char}
    (h : p a = false) : (a :: tl).takeWhile p = [] := by
  simp [List.takeWhile_cons, h]

theorem dropWhile_cons_of_neg {p : Char → Bool} {a : Char} {tl : List Char}
    (h : p a = false) : (a :: tl).dropWhile p = a :: tl := by
  simp [List.dropWhile_cons, h]

theorem dropWhile_eq_self_of {p : Char → Bool} {cs : List Char}
    (h : ∀ c ∈ cs, p c = false) : cs.dropWhile p = cs := by
  cases cs with
  | nil => rfl
  | cons a tl => simp [List.dropWhile_cons, h a (by simp)]

theorem trimWs_eq_self {cs : List Char}
    (h : ∀ c ∈ cs, pyIsSpace c = false) : trimWs cs = cs := by
  unfold trimWs
  rw [dropWhile_eq_self_of h]
  rw [dropWhile_eq_self_of (by intro c hc; exact h c (List.mem_reverse.mp hc))]
  exact List.reverse_reverse cs

theorem isDigit_not_space {c : Char} (h : c.isDigit = true) :
    pyIsSpace c = false := by
  by_contra hc
  simp only [Bool.not_eq_false] at hc
  unfold pyIsSpace at hc
  simp only [decide_eq_true_eq] at hc
  rcases hc with rfl | rfl | rfl | rfl | rfl | rfl <;> simp [Char.isDigit] at h

theorem isDigit_ne {c c' : Char} (h : c.isDigit = true)
    (h' : c'.isDigit = false) : c ≠ c' := by
  intro hh
  rw [hh] at h
  rw [h] at h'
  exact Bool.noConfusion h'

theorem fmt2_toList (q : Dec) :
    (fmt2 q).toList =
      (if Dec.roundInt ⟨q.m, q.e + 2⟩ < 0 then ['-'] else []) ++
        natDigits ((Dec.roundInt ⟨q.m, q.e + 2⟩).natAbs / 100) ++
        ['.', digitChar ((Dec.roundInt ⟨q.m, q.e + 2⟩).natAbs / 10 % 10),
         digitChar ((Dec.roundInt ⟨q.m, q.e + 2⟩).natAbs % 10)] := rfl

theorem fmt2_chars (q : Dec) :
    ∀ c ∈ (fmt2 q).toList, c.isDigit = true ∨ c = '.' ∨ c = '-' := by
  intro c hc
  rw [fmt2_toList] at hc
  simp only [List.mem_append, List.mem_cons, List.mem_singleton] at hc
  rcases hc with (hc | hc) | hc
  · by_cases hneg : Dec.roundInt ⟨q.m, q.e + 2⟩ < 0
    · simp [hneg] at hc
      right; right; exact hc
    · simp [hneg] at hc
  · left; exact natDigits_digits _ c hc
  · rcases hc with hc | hc | hc | hc
    · right; left; exact hc
    · left; rw [hc]; exact digitChar_isDigit _
    · left; rw [hc]; exact digitChar_isDigit _
    · simp at hc

theorem fmt2_no_R (q : Dec) : 'R' ∉ (fmt2 q).toList := by
  intro hm
  rcases fmt2_chars q 'R' hm with h | h | h
  · simp [Char.isDigit] at h
  · exact absurd h (by decide)
  · exact absurd h (by decide)

theorem fmt2_no_comma (q : Dec) : ',' ∉ (fmt2 q).toList := by
  intro hm
  rcases fmt2_chars q ',' hm with h | h | h
  · simp [Char.isDigit] at h
  · exact absurd h (by decide)
  · exact absurd h (by decide)

theorem pyReplaceL_not_mem {p0 : Char} (ptl repl : List Char) :
    ∀ fuel (cs : List Char), p0 ∉ cs → pyReplaceL p0 ptl repl fuel cs = cs := by
  intro fuel
  induction fuel with
  | zero => intro cs _; rfl
  | succ f ih =>
    intro cs h
    cases cs with
    | nil => rfl
    | cons c tl =>
      have hc : (p0 == c) = false := by
        simp only [beq_eq_false_iff_ne, ne_eq]
        intro hh
        exact h (hh ▸ List.mem_cons_self _ _)
      have hpre : (p0 :: ptl).isPrefixOf (c :: tl) = false := by
        simp [List.isPrefixOf, hc]
      simp [pyReplaceL, hpre]
      exact ih tl fun hm => h (List.mem_cons_of_mem _ hm)

theorem isPrefixOf_append_self (xs ys : List Char) :
    xs.isPrefixOf (xs ++ ys) = true := by
  induction xs with
  | nil => simp [List.isPrefixOf]
  | cons a tl ih => simp [List.isPrefixOf, ih]

theorem pyReplace_strip_Rs {t : List Char} (h : 'R' ∉ t) :
    pyReplace (String.mk ('R' :: '$' :: ' ' :: t)) "R$ " "" = String.mk t := by
  show String.mk (pyReplaceL 'R' ['$', ' '] [] (t.length + 3) ('R' :: '$' :: ' ' :: t)) =
    String.mk t
  have h1 : ('R' :: ['$', ' ']).isPrefixOf ('R' :: '$' :: ' ' :: t) = true :=
    isPrefixOf_append_self ['R', '$', ' '] t
  simp only [pyReplaceL, h1, if_true, List.nil_append, List.drop_succ_cons,
    List.drop_zero, List.length_cons, List.length_nil]
  exact congrArg String.mk (pyReplaceL_not_mem _ _ _ _ h)

theorem pyReplace_comma_id {s : String} (h : ',' ∉ s.toList) :
    pyReplace s "," "" = s := by
  show String.mk (pyReplaceL ',' [] [] s.toList.length s.toList) = s
  rw [pyReplaceL_not_mem _ _ _ _ h]
  rfl

theorem projClean (q : Dec) :
    pyReplace (pyReplace ("R$ " ++ fmt2 q) "R$ " "") "," "" = fmt2 q := by
  have h1 : ("R$ " ++ fmt2 q).toList = 'R' :: '$' :: ' ' :: (fmt2 q).toList := by
    have : ("R$ " ++ fmt2 q).toList = "R$ ".toList ++ (fmt2 q).toList := by
      simp [String.toList]
    rw [this]; rfl
  have h2 : pyReplace ("R$ " ++ fmt2 q) "R$ " "" = String.mk (fmt2 q).toList := by
    have hrepr : ("R$ " ++ fmt2 q) = String.mk ('R' :: '$' :: ' ' :: (fmt2 q).toList) := by
      apply congrArg String.mk h1
    rw [hrepr, pyReplace_strip_Rs (fmt2_no_R q)]
  rw [h2]
  have hmk : String.mk (fmt2 q).toList = fmt2 q := rfl
  rw [hmk]
  exact pyReplace_comma_id (fmt2_no_comma q)

theorem toList_mk (l : List Char) : (String.mk l).toList = l := rfl

theorem pyFloat_shape (neg : Bool) (a : Char) (A' : List Char) (d1 d2 : Char)
    (ha : a.isDigit = true) (hA' : ∀ c ∈ A', c.isDigit = true)
    (h1 : d1.isDigit = true) (h2 : d2.isDigit = true) :
    (pyFloat (String.mk ((if neg then ['-'] else []) ++
      ((a :: A') ++ ['.', d1, d2])))).isSome = true := by
  have hd1 : Char.isDigit '.' = false := by decide
  have hm1 : (a = '-') = False := eq_false (isDigit_ne ha (by decide))
  have hp1 : (a = '+') = False := eq_false (isDigit_ne ha (by decide))
  have hns : ∀ c ∈ (if neg then ['-'] else []) ++ ((a :: A') ++ ['.', d1, d2]),
      pyIsSpace c = false := by
    intro c hc
    simp only [List.mem_append, List.mem_cons, List.mem_singleton] at hc
    rcases hc with hc | (hc | hc) | (hc | hc | hc | hc)
    · cases neg
      · simp at hc
      · simp at hc; rw [hc]; decide
    · rw [hc]; exact isDigit_not_space ha
    · exact isDigit_not_space (hA' c hc)
    · rw [hc]; decide
    · rw [hc]; exact isDigit_not_space h1
    · rw [hc]; exact isDigit_not_space h2
    · simp at hc
  have hns' : ∀ c ∈ a :: (A' ++ ['.', d1, d2]), pyIsSpace c = false := by
    intro c hc
    refine hns c ?_
    simp only [List.mem_append, List.mem_cons] at hc ⊢
    tauto
  have e1 : trimWs (a :: (A' ++ ['.', d1, d2])) = a :: (A' ++ ['.', d1, d2]) :=
    trimWs_eq_self hns'
  cases neg
  · simp only [pyFloat, toList_mk, Bool.false_eq_true, if_false,
      List.nil_append, List.cons_append, e1]
    simp only [List.head?_cons, Option.some.injEq, hm1, hp1, or_self,
      if_false, List.takeWhile_cons, List.dropWhile_cons, ha, if_true]
    rw [takeWhile_append_of_all hA', dropWhile_append_of_all hA']
    simp [List.takeWhile_cons, List.dropWhile_cons, hd1, h1, h2]
  · have e2 : trimWs ('-' :: (a :: (A' ++ ['.', d1, d2]))) =
        '-' :: (a :: (A' ++ ['.', d1, d2])) := by
      refine trimWs_eq_self ?_
      intro c hc
      rcases List.mem_cons.mp hc with rfl | hc
      · decide
      · exact hns' c hc
    have hlist : ((if (true : Bool) then ['-'] else []) ++ ((a :: A') ++ ['.', d1, d2])) =
        '-' :: (a :: (A' ++ ['.', d1, d2])) := by simp
    rw [hlist]
    simp only [pyFloat, toList_mk, e2]
    simp only [List.head?_cons, Option.some.injEq, List.tail_cons,
      List.takeWhile_cons, List.dropWhile_cons, ha, true_or, if_true]
    rw [takeWhile_append_of_all hA', dropWhile_append_of_all hA']
    simp [List.takeWhile_cons, List.dropWhile_cons, hd1, h1, h2]

theorem pyFloat_fmt2_isSome (q : Dec) : (pyFloat (fmt2 q)).isSome = true := by
  have hmk : fmt2 q = String.mk ((fmt2 q).toList) := rfl
  rw [hmk, fmt2_toList]
  obtain ⟨a, A', hA⟩ := List.exists_cons_of_ne_nil
    (natDigits_ne_nil ((Dec.roundInt ⟨q.m, q.e + 2⟩).natAbs / 100))
  have hdigits := natDigits_digits ((Dec.roundInt ⟨q.m, q.e + 2⟩).natAbs / 100)
  rw [hA] at hdigits ⊢
  have ha : a.isDigit = true := hdigits a (by simp)
  have hA' : ∀ c ∈ A', c.isDigit = true := fun c hc => hdigits c (by simp [hc])
  by_cases hneg : Dec.roundInt ⟨q.m, q.e + 2⟩ < 0
  · have := pyFloat_shape true a A'
      (digitChar ((Dec.roundInt ⟨q.m, q.e + 2⟩).natAbs / 10 % 10))
      (digitChar ((Dec.roundInt ⟨q.m, q.e + 2⟩).natAbs % 10))
      ha hA' (digitChar_isDigit _) (digitChar_isDigit _)
    simpa [hneg, List.append_assoc] using this
  · have := pyFloat_shape false a A'
      (digitChar ((Dec.roundInt ⟨q.m, q.e + 2⟩).natAbs / 10 % 10))
      (digitChar ((Dec.roundInt ⟨q.m, q.e + 2⟩).natAbs % 10))
      ha hA' (digitChar_isDigit _) (digitChar_isDigit _)
    simpa [hneg, List.append_assoc] using this

theorem pyFloat_projClean_isSome (q : Dec) :
    (pyFloat (pyReplace (pyReplace ("R$ " ++ fmt2 q) "R$ " "") "," "")).isSome = true := by
  rw [projClean]
  exact pyFloat_fmt2_isSome q

/-! ## Supporting lemmas: stage runs -/

theorem pipeM_bind_apply (x : PipeM α) (f : α → PipeM β) (log : List LLMCall) :
    (x >>= f) log =
      match x log with
      | (.ok a, log') => f a log'
      | (.error e, log') => (.error e, log') := rfl

theorem pipeM_pure_apply (a : α) (log : List LLMCall) :
    (pure a : PipeM α) log = (.ok a, log) := rfl

theorem llmGenerate_apply (env : Prov) (m : Nat) (ctx : List String)
    (log : List LLMCall) :
    llmGenerate env m ctx log = (.ok (env.llm log.length), log ++ [⟨m, ctx⟩]) := rfl

theorem liftE_apply (x : Except String α) (log : List LLMCall) :
    liftE x log = (x, log) := rfl

theorem pipeM_bind_ok {x : PipeM α} {f : α → PipeM β} {log log' : List LLMCall}
    {a : α} (h : x log = (.ok a, log')) :
    (x >>= f) log = f a log' := by
  show (match x log with
    | (.ok a, log') => f a log'
    | (.error e, log') => (.error e, log')) = f a log'
  rw [h]

theorem pipeM_snd_bind_liftE (x : Except String α) (f : α → PipeM β)
    (log : List LLMCall) (h : ∀ a, (f a log).2 = log) :
    ((liftE x >>= f) log).2 = log := by
  cases x with
  | error e => rfl
  | ok a => exact h a

theorem create_archaeological_avatar_run (env : Prov) (data : Dict) (sd : JVal)
    (log : List LLMCall) :
    ∃ v, create_archaeological_avatar env data sd log =
      (.ok v, log ++ [⟨8192, avatarPromptCtx data sd⟩]) := by
  unfold create_archaeological_avatar
  cases h : env.llm log.length with
  | fail =>
    exact ⟨generate_fallback_avatar data,
      by simp [pipeM_bind_apply, llmGenerate_apply, h, pipeM_pure_apply]⟩
  | text t =>
    by_cases ht : t = ""
    · exact ⟨generate_fallback_avatar data,
        by simp [pipeM_bind_apply, llmGenerate_apply, h, ht, pipeM_pure_apply]⟩
    · exact ⟨parse_json_response t,
        by simp [pipeM_bind_apply, llmGenerate_apply, h, ht, pipeM_pure_apply]⟩

theorem create_archaeological_avatar_run_val (env : Prov) (data : Dict)
    (sd : JVal) :
    create_archaeological_avatar env data sd [] =
      (.ok (avatarValue env data), [⟨8192, avatarPromptCtx data sd⟩]) := by
  unfold create_archaeological_avatar avatarValue
  cases h : env.llm 0 with
  | fail =>
    simp [pipeM_bind_apply, llmGenerate_apply, h, pipeM_pure_apply]
  | text t =>
    by_cases ht : t = "" <;>
      simp [pipeM_bind_apply, llmGenerate_apply, h, ht, pipeM_pure_apply]

theorem generate_mental_drivers_system_run (env : Prov) (av : JVal) (data : Dict)
    (log : List LLMCall) :
    ∃ v, generate_mental_drivers_system env av data log =
      (.ok v, log ++ [⟨8192, driversPromptCtx av data⟩]) := by
  unfold generate_mental_drivers_system
  cases h : env.llm log.length with
  | fail =>
    exact ⟨generate_fallback_drivers data,
      by simp [pipeM_bind_apply, llmGenerate_apply, h, pipeM_pure_apply]⟩
  | text t =>
    by_cases ht : t = ""
    · exact ⟨generate_fallback_drivers data,
        by simp [pipeM_bind_apply, llmGenerate_apply, h, ht, pipeM_pure_apply]⟩
    · cases hp : parse_json_response t with
      | arr xs =>
        exact ⟨.arr xs, by simp [pipeM_bind_apply, llmGenerate_apply, h, ht, hp, pipeM_pure_apply]⟩
      | null => exact ⟨.arr [], by simp [pipeM_bind_apply, llmGenerate_apply, h, ht, hp, pipeM_pure_apply]⟩
      | bool b => exact ⟨.arr [], by simp [pipeM_bind_apply, llmGenerate_apply, h, ht, hp, pipeM_pure_apply]⟩
      | num q => exact ⟨.arr [], by simp [pipeM_bind_apply, llmGenerate_apply, h, ht, hp, pipeM_pure_apply]⟩
      | str s => exact ⟨.arr [], by simp [pipeM_bind_apply, llmGenerate_apply, h, ht, hp, pipeM_pure_apply]⟩
      | obj kvs => exact ⟨.arr [], by simp [pipeM_bind_apply, llmGenerate_apply, h, ht, hp, pipeM_pure_apply]⟩

theorem build_anti_objection_system_run (env : Prov) (av : JVal) (data : Dict)
    (log : List LLMCall) :
    ∃ v, build_anti_objection_system env av data log =
      (.ok v, log ++ [⟨8192, antiObjectionPromptCtx av⟩]) := by
  unfold build_anti_objection_system
  cases h : env.llm log.length with
  | fail =>
    exact ⟨generate_fallback_anti_objection data,
      by simp [pipeM_bind_apply, llmGenerate_apply, h, pipeM_pure_apply]⟩
  | text t =>
    by_cases ht : t = ""
    · exact ⟨generate_fallback_anti_objection data,
        by simp [pipeM_bind_apply, llmGenerate_apply, h, ht, pipeM_pure_apply]⟩
    · exact ⟨parse_json_response t,
        by simp [pipeM_bind_apply, llmGenerate_apply, h, ht, pipeM_pure_apply]⟩

theorem create_visual_proofs_system_run (env : Prov) (data : Dict) (dr : JVal)
    (log : List LLMCall) :
    ∃ v, create_visual_proofs_system env data dr log =
      (.ok v, log ++ [⟨8192, visualProofsPromptCtx data dr⟩]) := by
  unfold create_visual_proofs_system
  cases h : env.llm log.length with
  | fail =>
    exact ⟨generate_fallback_provis data,
      by simp [pipeM_bind_apply, llmGenerate_apply, h, pipeM_pure_apply]⟩
  | text t =>
    by_cases ht : t = ""
    · exact ⟨generate_fallback_provis data,
        by simp [pipeM_bind_apply, llmGenerate_apply, h, ht, pipeM_pure_apply]⟩
    · cases hp : parse_json_response t with
      | arr xs =>
        exact ⟨.arr xs, by simp [pipeM_bind_apply, llmGenerate_apply, h, ht, hp, pipeM_pure_apply]⟩
      | null => exact ⟨.arr [], by simp [pipeM_bind_apply, llmGenerate_apply, h, ht, hp, pipeM_pure_apply]⟩
      | bool b => exact ⟨.arr [], by simp [pipeM_bind_apply, llmGenerate_apply, h, ht, hp, pipeM_pure_apply]⟩
      | num q => exact ⟨.arr [], by simp [pipeM_bind_apply, llmGenerate_apply, h, ht, hp, pipeM_pure_apply]⟩
      | str s => exact ⟨.arr [], by simp [pipeM_bind_apply, llmGenerate_apply, h, ht, hp, pipeM_pure_apply]⟩
      | obj kvs => exact ⟨.arr [], by simp [pipeM_bind_apply, llmGenerate_apply, h, ht, hp, pipeM_pure_apply]⟩

theorem analyze_deep_competition_run (env : Prov) (data : Dict) (sd : JVal)
    (log : List LLMCall) :
    ∃ v, analyze_deep_competition env data sd log =
      (.ok v, log ++ [⟨6144, competitionPromptCtx data sd⟩]) := by
  unfold analyze_deep_competition
  cases h : env.llm log.length with
  | fail =>
    exact ⟨generate_fallback_competition data,
      by simp [pipeM_bind_apply, llmGenerate_apply, h, pipeM_pure_apply]⟩
  | text t =>
    by_cases ht : t = ""
    · exact ⟨generate_fallback_competition data,
        by simp [pipeM_bind_apply, llmGenerate_apply, h, ht, pipeM_pure_apply]⟩
    · exact ⟨parse_json_response t,
        by simp [pipeM_bind_apply, llmGenerate_apply, h, ht, pipeM_pure_apply]⟩

theorem architect_invisible_pre_pitch_run_ok (env : Prov) (dr av : JVal)
    (log : List LLMCall) {t : String} (h : env.llm log.length = .text t)
    (ht : t ≠ "") :
    architect_invisible_pre_pitch env dr av log =
      (.ok (parse_json_response t), log ++ [⟨8192, prePitchPromptCtx dr av⟩]) := by
  unfold architect_invisible_pre_pitch
  simp [pipeM_bind_apply, llmGenerate_apply, h, ht, pipeM_pure_apply]

theorem architect_invisible_pre_pitch_run_err (env : Prov) (dr av : JVal)
    (log : List LLMCall)
    (h : env.llm log.length = .fail ∨ env.llm log.length = .text "") :
    architect_invisible_pre_pitch env dr av log =
      (.error nameErrorData, log ++ [⟨8192, prePitchPromptCtx dr av⟩]) := by
  unfold architect_invisible_pre_pitch
  rcases h with h | h <;>
    simp [pipeM_bind_apply, llmGenerate_apply, h, pyRaise]

theorem create_keyword_strategy_ok (data : Dict) (sd : JVal)
    (h : SegOkB data = true) :
    ∃ j, create_keyword_strategy data sd = .ok j := by
  unfold SegOkB at h
  unfold create_keyword_strategy
  cases hv : (dictGet data "segmento").getD (.str "") with
  | str s => exact ⟨_, rfl⟩
  | null => rw [hv] at h; simp at h
  | bool b => rw [hv] at h; simp at h
  | num q => rw [hv] at h; simp at h
  | arr xs => rw [hv] at h; simp at h
  | obj kvs => rw [hv] at h; simp at h

theorem calculate_detailed_metrics_ok (data : Dict) (av : JVal)
    (h : PrecoOkB data = true) :
    ∃ p, calculate_detailed_metrics data av = .ok (metricsTemplate p) := by
  unfold PrecoOkB at h
  unfold calculate_detailed_metrics
  cases hv : dictGet data "preco" with
  | none => exact ⟨Dec.ofInt 997, by simp [hv, Bind.bind, Except.bind]⟩
  | some v =>
    rw [hv] at h
    by_cases htr : pyTruthy v
    · simp only [htr, if_true] at h
      cases hf : pyFloatOf v with
      | ok d => exact ⟨d, by simp [hv, htr, hf, Bind.bind, Except.bind]⟩
      | error e => rw [hf] at h; simp [exceptOk] at h
    · exact ⟨Dec.ofInt 997, by simp [hv, htr, Bind.bind, Except.bind]⟩

theorem projRevenue_ok (p mult : Dec) (cen : String)
    (hcen : cen = "cenario_conservador" ∨ cen = "cenario_realista" ∨
      cen = "cenario_otimista") :
    ∃ j, projRevenue (metricsTemplate p) cen mult = .ok j := by
  rcases hcen with rfl | rfl | rfl
  · obtain ⟨d, hd⟩ :=
      Option.isSome_iff_exists.mp (pyFloat_projClean_isSome (p.mul (Dec.ofInt 10)))
    exact ⟨.str ("R$ " ++ fmt2 (d.mul mult)),
      by simp [projRevenue, metricsTemplate, pyIndex, dictGet, pyStrVal, hd,
        Bind.bind, Except.bind]⟩
  · obtain ⟨d, hd⟩ :=
      Option.isSome_iff_exists.mp (pyFloat_projClean_isSome (p.mul (Dec.ofInt 25)))
    exact ⟨.str ("R$ " ++ fmt2 (d.mul mult)),
      by simp [projRevenue, metricsTemplate, pyIndex, dictGet, pyStrVal, hd,
        Bind.bind, Except.bind]⟩
  · obtain ⟨d, hd⟩ :=
      Option.isSome_iff_exists.mp (pyFloat_projClean_isSome (p.mul (Dec.ofInt 50)))
    exact ⟨.str ("R$ " ++ fmt2 (d.mul mult)),
      by simp [projRevenue, metricsTemplate, pyIndex, dictGet, pyStrVal, hd,
        Bind.bind, Except.bind]⟩

theorem exceptOk_iff_exists {x : Except String α} :
    exceptOk x = true ↔ ∃ a, x = .ok a := by
  cases x <;> simp [exceptOk]

theorem generate_projections_scenarios_ok (data : Dict) (p : Dec) :
    ∃ j, generate_projections_scenarios data (metricsTemplate p) = .ok j := by
  obtain ⟨j1, h1⟩ := projRevenue_ok p ⟨15, -1⟩ "cenario_conservador" (by simp)
  obtain ⟨j2, h2⟩ := projRevenue_ok p ⟨225, -2⟩ "cenario_conservador" (by simp)
  obtain ⟨j3, h3⟩ := projRevenue_ok p (Dec.ofInt 2) "cenario_realista" (by simp)
  obtain ⟨j4, h4⟩ := projRevenue_ok p (Dec.ofInt 4) "cenario_realista" (by simp)
  obtain ⟨j5, h5⟩ := projRevenue_ok p (Dec.ofInt 3) "cenario_otimista" (by simp)
  obtain ⟨j6, h6⟩ := projRevenue_ok p (Dec.ofInt 9) "cenario_otimista" (by simp)
  rw [← exceptOk_iff_exists]
  simp only [generate_projections_scenarios, Bind.bind, Except.bind,
    h1, h2, h3, h4, h5, h6]
  simp [metricsTemplate, pyIndex, dictGet, exceptOk]

theorem isDict_iff_exists {v : JVal} : isDict v = true ↔ ∃ kvs, v = .obj kvs := by
  cases v <;> simp [isDict]

theorem generate_exclusive_insights_ok (r data : Dict)
    (hp : ∃ n, jgetD ((dictGet r "pesquisa_web_massiva").getD (.obj []))
      "total_resultados" (.num ⟨0, 0⟩) = .num n)
    (hpd : isDict ((dictGet r "pesquisa_web_massiva").getD (.obj [])) = true)
    (had : isDict ((dictGet r "avatar_ultra_detalhado").getD (.obj [])) = true) :
    ∃ j, generate_exclusive_insights r data = .ok j := by
  obtain ⟨n, hn⟩ := hp
  obtain ⟨pkvs, hpk⟩ := isDict_iff_exists.mp hpd
  obtain ⟨akvs, hak⟩ := isDict_iff_exists.mp had
  rw [hpk] at hn
  simp only [jgetD, jget] at hn
  rw [← exceptOk_iff_exists]
  simp [generate_exclusive_insights, hpk, hak, hn, pyDictGet, pyGtZero,
    Bind.bind, Except.bind, exceptOk]

theorem research_total_num (env : Prov) (data : Dict) :
    ∃ n, jget (perform_massive_web_research env data) "total_resultados" =
      some (.num ⟨n, 0⟩) := by
  refine ⟨(((research_queries data).foldl (researchQueryStep env) ([], 0)).1.length : Int), ?_⟩
  simp [perform_massive_web_research, jget, dictGet]

theorem pipelineCore_ok (env : Prov) (data : Dict)
    (hseg : SegOkB data = true) (hpreco : PrecoOkB data = true)
    (hav : AvatarOkB env data = true)
    {t4 : String} (hllm4 : env.llm 4 = .text t4) (ht4 : t4 ≠ "") :
    ∃ avatar drivers anti provas comp keywords : JVal, ∃ p : Dec,
    ∃ proj action insights : JVal,
      pipelineCore env data [] = (.ok
        [("pesquisa_web_massiva", perform_massive_web_research env data),
         ("avatar_ultra_detalhado", avatar),
         ("drivers_mentais_customizados", drivers),
         ("sistema_anti_objecao", anti),
         ("provas_visuais_sugeridas", provas),
         ("pre_pitch_invisivel", parse_json_response t4),
         ("analise_concorrencia_detalhada", comp),
         ("escopo", define_positioning_strategy data avatar comp),
         ("estrategia_palavras_chave", keywords),
         ("metricas_performance_detalhadas", metricsTemplate p),
         ("projecoes_cenarios", proj),
         ("plano_acao_detalhado", action),
         ("insights_exclusivos", insights)],
        [⟨8192, avatarPromptCtx data (perform_massive_web_research env data)⟩,
         ⟨8192, driversPromptCtx avatar data⟩,
         ⟨8192, antiObjectionPromptCtx avatar⟩,
         ⟨8192, visualProofsPromptCtx data drivers⟩,
         ⟨8192, prePitchPromptCtx drivers avatar⟩,
         ⟨6144, competitionPromptCtx data (perform_massive_web_research env data)⟩]) := by
  set sd := perform_massive_web_research env data with hsd
  have hA := create_archaeological_avatar_run_val env data sd
  set vA := avatarValue env data with hvA
  have hsdDict : isDict sd = true := by rw [hsd]; rfl
  have havD : isDict vA = true := by rw [hvA]; exact hav
  obtain ⟨vD, hD⟩ :=
    generate_mental_drivers_system_run env vA data [⟨8192, avatarPromptCtx data sd⟩]
  obtain ⟨vAo, hAo⟩ := build_anti_objection_system_run env vA data
    [⟨8192, avatarPromptCtx data sd⟩, ⟨8192, driversPromptCtx vA data⟩]
  obtain ⟨vP, hP⟩ := create_visual_proofs_system_run env data vD
    [⟨8192, avatarPromptCtx data sd⟩, ⟨8192, driversPromptCtx vA data⟩,
     ⟨8192, antiObjectionPromptCtx vA⟩]
  have hPP := architect_invisible_pre_pitch_run_ok env vD vA
    [⟨8192, avatarPromptCtx data sd⟩, ⟨8192, driversPromptCtx vA data⟩,
     ⟨8192, antiObjectionPromptCtx vA⟩, ⟨8192, visualProofsPromptCtx data vD⟩]
    hllm4 ht4
  obtain ⟨vC, hC⟩ := analyze_deep_competition_run env data sd
    [⟨8192, avatarPromptCtx data sd⟩, ⟨8192, driversPromptCtx vA data⟩,
     ⟨8192, antiObjectionPromptCtx vA⟩, ⟨8192, visualProofsPromptCtx data vD⟩,
     ⟨8192, prePitchPromptCtx vD vA⟩]
  obtain ⟨vK, hK⟩ := create_keyword_strategy_ok data sd hseg
  obtain ⟨p, hM⟩ := calculate_detailed_metrics_ok data vA hpreco
  obtain ⟨vPr, hPr⟩ := generate_projections_scenarios_ok data p
  obtain ⟨nn, hn⟩ := research_total_num env data
  rw [← hsd] at hn
  obtain ⟨vI, hI⟩ := generate_exclusive_insights_ok
    [("pesquisa_web_massiva", sd),
     ("avatar_ultra_detalhado", vA),
     ("drivers_mentais_customizados", vD),
     ("sistema_anti_objecao", vAo),
     ("provas_visuais_sugeridas", vP),
     ("pre_pitch_invisivel", parse_json_response t4),
     ("analise_concorrencia_detalhada", vC),
     ("escopo", define_positioning_strategy data vA vC),
     ("estrategia_palavras_chave", vK),
     ("metricas_performance_detalhadas", metricsTemplate p),
     ("projecoes_cenarios", vPr),
     ("plano_acao_detalhado", create_detailed_action_plan data
       [("pesquisa_web_massiva", sd),
        ("avatar_ultra_detalhado", vA),
        ("drivers_mentais_customizados", vD),
        ("sistema_anti_objecao", vAo),
        ("provas_visuais_sugeridas", vP),
        ("pre_pitch_invisivel", parse_json_response t4),
        ("analise_concorrencia_detalhada", vC),
        ("escopo", define_positioning_strategy data vA vC),
        ("estrategia_palavras_chave", vK),
        ("metricas_performance_detalhadas", metricsTemplate p),
        ("projecoes_cenarios", vPr)])]
    data ⟨⟨nn, 0⟩, by simp [dictGet, jgetD, hn]⟩
    (by simp [dictGet, hsdDict]) (by simp [dictGet, havD])
  refine ⟨vA, vD, vAo, vP, vC, vK, p, vPr,
    create_detailed_action_plan data
      [("pesquisa_web_massiva", sd),
       ("avatar_ultra_detalhado", vA),
       ("drivers_mentais_customizados", vD),
       ("sistema_anti_objecao", vAo),
       ("provas_visuais_sugeridas", vP),
       ("pre_pitch_invisivel", parse_json_response t4),
       ("analise_concorrencia_detalhada", vC),
       ("escopo", define_positioning_strategy data vA vC),
       ("estrategia_palavras_chave", vK),
       ("metricas_performance_detalhadas", metricsTemplate p),
       ("projecoes_cenarios", vPr)], vI, ?_⟩
  simp only [pipelineCore, pipeM_bind_apply, ← hsd, hA, List.nil_append, hD,
    List.cons_append, hAo, hP, hPP, hC, liftE_apply, hK, hM, hPr,
    Except.map, pipeM_pure_apply, dictSet]
  simp [dictSet, hI]

theorem pipelineCore_snd (env : Prov) (data : Dict)
    {t4 : String} (hllm4 : env.llm 4 = .text t4) (ht4 : t4 ≠ "") :
    ∃ avatar drivers : JVal,
      (pipelineCore env data []).2 =
        [⟨8192, avatarPromptCtx data (perform_massive_web_research env data)⟩,
         ⟨8192, driversPromptCtx avatar data⟩,
         ⟨8192, antiObjectionPromptCtx avatar⟩,
         ⟨8192, visualProofsPromptCtx data drivers⟩,
         ⟨8192, prePitchPromptCtx drivers avatar⟩,
         ⟨6144, competitionPromptCtx data
           (perform_massive_web_research env data)⟩] := by
  set sd := perform_massive_web_research env data with hsd
  obtain ⟨vA, hA⟩ := create_archaeological_avatar_run env data sd []
  obtain ⟨vD, hD⟩ :=
    generate_mental_drivers_system_run env vA data [⟨8192, avatarPromptCtx data sd⟩]
  obtain ⟨vAo, hAo⟩ := build_anti_objection_system_run env vA data
    [⟨8192, avatarPromptCtx data sd⟩, ⟨8192, driversPromptCtx vA data⟩]
  obtain ⟨vP, hP⟩ := create_visual_proofs_system_run env data vD
    [⟨8192, avatarPromptCtx data sd⟩, ⟨8192, driversPromptCtx vA data⟩,
     ⟨8192, antiObjectionPromptCtx vA⟩]
  have hPP := architect_invisible_pre_pitch_run_ok env vD vA
    [⟨8192, avatarPromptCtx data sd⟩, ⟨8192, driversPromptCtx vA data⟩,
     ⟨8192, antiObjectionPromptCtx vA⟩, ⟨8192, visualProofsPromptCtx data vD⟩]
    hllm4 ht4
  obtain ⟨vC, hC⟩ := analyze_deep_competition_run env data sd
    [⟨8192, avatarPromptCtx data sd⟩, ⟨8192, driversPromptCtx vA data⟩,
     ⟨8192, antiObjectionPromptCtx vA⟩, ⟨8192, visualProofsPromptCtx data vD⟩,
     ⟨8192, prePitchPromptCtx vD vA⟩]
  refine ⟨vA, vD, ?_⟩
  unfold pipelineCore
  rw [← hsd, pipeM_bind_ok hA]
  simp only [List.nil_append]
  rw [pipeM_bind_ok hD]
  simp only [List.cons_append, List.nil_append]
  rw [pipeM_bind_ok hAo]
  simp only [List.cons_append, List.nil_append]
  rw [pipeM_bind_ok hP]
  simp only [List.cons_append, List.nil_append]
  rw [pipeM_bind_ok hPP]
  simp only [List.cons_append, List.nil_append]
  rw [pipeM_bind_ok hC]
  simp only [List.cons_append, List.nil_append]
  exact pipeM_snd_bind_liftE _ _ _ fun vK =>
    pipeM_snd_bind_liftE _ _ _ fun vM =>
      pipeM_snd_bind_liftE _ _ _ fun vPr =>
        pipeM_snd_bind_liftE _ _ _ fun vI => rfl

theorem gga_has_sections (env : Prov) (clock : Clock) (data : Dict)
    (hseg : SegOkB data = true) (hpreco : PrecoOkB data = true)
    (hav : AvatarOkB env data = true)
    {t4 : String} (hllm4 : env.llm 4 = .text t4) (ht4 : t4 ≠ "") :
    ∀ k ∈ sections13, hasKeyJ (generate_gigantic_analysis env clock data) k = true := by
  obtain ⟨vA, vD, vAo, vP, vC, vK, p, vPr, vAc, vI, hok⟩ :=
    pipelineCore_ok env data hseg hpreco hav hllm4 ht4
  intro k hk
  simp only [sections13] at hk
  fin_cases hk <;>
  · simp only [generate_gigantic_analysis, hok, hasKeyJ, jget]
    rw [dictGet_dictSet_ne _ _ (by decide)]
    simp [dictGet]

theorem pyFindL_of_prefix {pat hay : List Char} (hne : hay ≠ [])
    (h : pat.isPrefixOf hay = true) : pyFindL pat hay = some 0 := by
  cases hay with
  | nil => exact absurd rfl hne
  | cons c rest => simp [pyFindL, h]

theorem pyRfindL_append {pat ys : List Char} (xs : List Char) {j : Nat}
    (h : pyRfindL pat ys = some j) :
    pyRfindL pat (xs ++ ys) = some (xs.length + j) := by
  induction xs with
  | nil => simpa using h
  | cons x tl ih =>
    simp only [List.cons_append, pyRfindL, List.append_eq, ih, List.length_cons,
      Option.some.injEq]
    omega

theorem trimWs_ends {c d : Char} (mid : List Char)
    (hc : pyIsSpace c = false) (hd : pyIsSpace d = false) :
    trimWs (c :: (mid ++ [d])) = c :: (mid ++ [d]) := by
  unfold trimWs
  rw [dropWhile_cons_of_neg hc]
  have hrev : (c :: (mid ++ [d])).reverse = d :: (mid.reverse ++ [c]) := by
    simp
  rw [hrev, dropWhile_cons_of_neg hd]
  rw [← hrev, List.reverse_reverse]

theorem parse_json_response_fenced (inner : String) :
    parse_json_response ("```json" ++ inner ++ "```") =
      (jsonLoads (pyStrip inner)).getD (.obj []) := by
  have hdata : ("```json" ++ inner ++ "```").toList =
      ['`', '`', '`', 'j', 's', 'o', 'n'] ++ inner.toList ++ ['`', '`', '`'] := by
    show ((("```json" ++ inner) ++ "```").data) = _
    rw [String.data_append, String.data_append]
    rfl
  have hshape : ['`', '`', '`', 'j', 's', 'o', 'n'] ++ inner.toList ++ ['`', '`', '`'] =
      '`' :: ((['`', '`', 'j', 's', 'o', 'n'] ++ inner.toList ++ ['`', '`']) ++ ['`']) := by
    simp
  have hstrip : pyStrip ("```json" ++ inner ++ "```") =
      String.mk (['`', '`', '`', 'j', 's', 'o', 'n'] ++ inner.toList ++ ['`', '`', '`']) := by
    unfold pyStrip
    rw [hdata, hshape, trimWs_ends _ (by decide) (by decide), ← hshape]
  have hfind : pyFindL "```json".toList
      (['`', '`', '`', 'j', 's', 'o', 'n'] ++ inner.toList ++ ['`', '`', '`']) = some 0 := by
    apply pyFindL_of_prefix (by simp)
    rw [List.append_assoc]
    exact isPrefixOf_append_self _ _
  have hrfind : pyRfindL "```".toList
      (['`', '`', '`', 'j', 's', 'o', 'n'] ++ inner.toList ++ ['`', '`', '`']) =
      some ((['`', '`', '`', 'j', 's', 'o', 'n'] ++ inner.toList).length + 0) :=
    pyRfindL_append _ (by rfl)
  have hslice : pySliceL
      (['`', '`', '`', 'j', 's', 'o', 'n'] ++ inner.toList ++ ['`', '`', '`'])
      7 (['`', '`', '`', 'j', 's', 'o', 'n'] ++ inner.toList).length = inner.toList := by
    unfold pySliceL
    rw [List.take_left]
    have h7 : (7 : Nat) = (['`', '`', '`', 'j', 's', 'o', 'n'] : List Char).length := rfl
    rw [h7, List.drop_left]
  have hc : pyContains
      (String.mk (['`', '`', '`', 'j', 's', 'o', 'n'] ++ inner.toList ++ ['`', '`', '`']))
      "```json" = true := by
    show (pyFindL "```json".toList
      (['`', '`', '`', 'j', 's', 'o', 'n'] ++ inner.toList ++ ['`', '`', '`'])).isSome = true
    rw [hfind]
    rfl
  have hclean : clean_json_text ("```json" ++ inner ++ "```") =
      pyStrip (String.mk inner.toList) := by
    unfold clean_json_text
    rw [hstrip, if_pos hc]
    show pyStrip (pySlice
      (String.mk (['`', '`', '`', 'j', 's', 'o', 'n'] ++ inner.toList ++ ['`', '`', '`']))
      (((pyFindL "```json".toList
        (['`', '`', '`', 'j', 's', 'o', 'n'] ++ inner.toList ++ ['`', '`', '`'])).getD 0) + 7)
      ((pyRfindL "```".toList
        (['`', '`', '`', 'j', 's', 'o', 'n'] ++ inner.toList ++ ['`', '`', '`'])).getD 0)) = _
    rw [hfind, hrfind]
    show pyStrip (String.mk (pySliceL
      (['`', '`', '`', 'j', 's', 'o', 'n'] ++ inner.toList ++ ['`', '`', '`'])
      (0 + 7) ((['`', '`', '`', 'j', 's', 'o', 'n'] ++ inner.toList).length + 0))) = _
    rw [Nat.zero_add, Nat.add_zero, hslice]
  unfold parse_json_response
  rw [hclean]
  have : pyStrip (String.mk inner.toList) = pyStrip inner := rfl
  rw [this]

/-! ## Supporting lemmas: PDF section order and database decoding -/

theorem except_bind_ok {x : Except String α} {f : α → Except String β} {b : β}
    (h : (x >>= f) = .ok b) : ∃ a, x = .ok a ∧ f a = .ok b := by
  cases x with
  | error e => simp [Bind.bind, Except.bind] at h
  | ok a => exact ⟨a, rfl, h⟩

theorem sectionBlock_mem {d : Dict} {key : String} {tag : PdfSection}
    {build : JVal → Except String Unit} {s : List PdfSection}
    (h : sectionBlock d key tag build = .ok s) (t : PdfSection) :
    t ∈ s ↔ (t = tag ∧ hasKey d key = true) := by
  unfold sectionBlock at h
  split at h
  next v hd =>
    obtain ⟨u, hb, h⟩ := except_bind_ok h
    injection h with h
    subst h
    simp [hasKey, hd]
  next hd =>
    injection h with h
    subst h
    simp [hasKey, hd]

theorem sectionBlock_sublist {d : Dict} {key : String} {tag : PdfSection}
    {build : JVal → Except String Unit} {s : List PdfSection}
    (h : sectionBlock d key tag build = .ok s) : s.Sublist [tag] := by
  unfold sectionBlock at h
  split at h
  next v hd =>
    obtain ⟨u, hb, h⟩ := except_bind_ok h
    injection h with h
    subst h
    exact List.Sublist.refl _
  next hd =>
    injection h with h
    subst h
    exact List.nil_sublist _

theorem decodeJsonField_nonstr (k : String) (v : JVal) (h : isStr v = false) :
    decodeJsonField k v = v := by
  unfold decodeJsonField
  split
  · split
    · cases v with
      | str s => simp [isStr] at h
      | null => rfl
      | bool b => rfl
      | num q => rfl
      | arr xs => rfl
      | obj kvs => rfl
    · rfl
  · rfl

theorem decodeJsonField_str_noparse (k s : String) (h : jsonLoads s = none) :
    decodeJsonField k (.str s) = .str s := by
  unfold decodeJsonField
  split
  · split
    · simp [h]
    · rfl
  · rfl

theorem decodeJsonField_str_parse (k s : String) (w : JVal)
    (hk : json_fields.contains k = true) (hs : pyTruthy (.str s) = true)
    (hp : jsonLoads s = some w) :
    decodeJsonField k (.str s) = w := by
  unfold decodeJsonField
  rw [hk, hs]
  simp [hp]

theorem map_decode_fst (row : Dict) :
    (row.map fun kv => (kv.1, decodeJsonField kv.1 kv.2)).map Prod.fst =
      row.map Prod.fst := by
  induction row with
  | nil => rfl
  | cons a t ih => simp [ih]

/-! ## Claim theorems -/

/-- Claim C1 (corrected).  When an LLM-backed stage receives a non-empty
response whose cleaned text is not valid JSON, `_parse_json_response`
returns `\x7b\x7d`, so the stage stores the empty dict (empty list for the
two list-shaped stages) — not the stage-specific hard-coded fallback, which
is used only for an exception or an empty response.  The stage signals no
error to the caller, and a run whose remaining stage preconditions hold
still completes with all thirteen section keys. -/
theorem c1_nonjson_stage_stores_empty (env : Prov) (data : Dict)
    (sd av dr : JVal) (log : List LLMCall) (t : String) (clock : Clock)
    (hllm : env.llm log.length = .text t) (ht : t ≠ "")
    (hp : jsonLoads (clean_json_text t) = none) :
    create_archaeological_avatar env data sd log =
        (.ok (.obj []), log ++ [⟨8192, avatarPromptCtx data sd⟩]) ∧
    generate_mental_drivers_system env av data log =
        (.ok (.arr []), log ++ [⟨8192, driversPromptCtx av data⟩]) ∧
    build_anti_objection_system env av data log =
        (.ok (.obj []), log ++ [⟨8192, antiObjectionPromptCtx av⟩]) ∧
    create_visual_proofs_system env data dr log =
        (.ok (.arr []), log ++ [⟨8192, visualProofsPromptCtx data dr⟩]) ∧
    architect_invisible_pre_pitch env dr av log =
        (.ok (.obj []), log ++ [⟨8192, prePitchPromptCtx dr av⟩]) ∧
    analyze_deep_competition env data sd log =
        (.ok (.obj []), log ++ [⟨6144, competitionPromptCtx data sd⟩]) ∧
    (SegOkB data = true → PrecoOkB data = true →
      (∀ i, env.llm i = .text t) →
      ∀ k ∈ sections13,
        hasKeyJ (generate_gigantic_analysis env clock data) k = true) := by
  have hparse : parse_json_response t = .obj [] := by
    simp [parse_json_response, hp]
  refine ⟨?_, ?_, ?_, ?_, ?_, ?_, ?_⟩
  · unfold create_archaeological_avatar
    simp [pipeM_bind_apply, llmGenerate_apply, hllm, ht, hparse, pipeM_pure_apply]
  · unfold generate_mental_drivers_system
    simp [pipeM_bind_apply, llmGenerate_apply, hllm, ht, hparse, pipeM_pure_apply]
  · unfold build_anti_objection_system
    simp [pipeM_bind_apply, llmGenerate_apply, hllm, ht, hparse, pipeM_pure_apply]
  · unfold create_visual_proofs_system
    simp [pipeM_bind_apply, llmGenerate_apply, hllm, ht, hparse, pipeM_pure_apply]
  · unfold architect_invisible_pre_pitch
    simp [pipeM_bind_apply, llmGenerate_apply, hllm, ht, hparse, pipeM_pure_apply]
  · unfold analyze_deep_competition
    simp [pipeM_bind_apply, llmGenerate_apply, hllm, ht, hparse, pipeM_pure_apply]
  · intro hseg hpreco hall
    have hav : AvatarOkB env data = true := by
      simp [AvatarOkB, avatarValue, hall 0, ht, hparse, isDict]
    exact gga_has_sections env clock data hseg hpreco hav (hall 4) ht

/-- Witness for C1 at concrete input: the fixture LLM answers the
non-empty non-JSON text on every call; the avatar stage stores `\x7b\x7d`
and reports success. -/
theorem c1_witness :
    provNonJson.llm 0 = .text "this is not json" ∧
    jsonLoads (clean_json_text "this is not json") = none ∧
    create_archaeological_avatar provNonJson dataA (.obj []) [] =
      (.ok (.obj []), [⟨8192, avatarPromptCtx dataA (.obj [])⟩]) ∧
    hasKeyJ (generate_gigantic_analysis provNonJson clockA dataA)
      "avatar_ultra_detalhado" = true :=
  ⟨rfl, rfl,
   (c1_nonjson_stage_stores_empty provNonJson dataA (.obj []) (.obj []) (.obj [])
     [] "this is not json" clockA rfl (by decide) rfl).1,
   (c1_nonjson_stage_stores_empty provNonJson dataA (.obj []) (.obj []) (.obj [])
     [] "this is not json" clockA rfl (by decide) rfl).2.2.2.2.2.2
     rfl rfl (fun _ => rfl) "avatar_ultra_detalhado" (by decide)⟩

/-- Counterexample to C1 as frozen: with every LLM response the non-empty
non-JSON text, the avatar section of the completed run is the empty dict,
while the documented fallback `_generate_fallback_avatar` contains the key
`nome_ficticio` — the stored value is not the fallback value. -/
theorem c1_counterexample :
    provNonJson.llm 0 = .text "this is not json" ∧
    jget (generate_gigantic_analysis provNonJson clockA dataA)
      "avatar_ultra_detalhado" = some (.obj []) ∧
    jContainsKey "nome_ficticio" (.obj []) = false ∧
    jContainsKey "nome_ficticio" (generate_fallback_avatar dataA) = true :=
  ⟨rfl, rfl, rfl, rfl⟩

/-- Claim C2 (corrected).  Whenever no stage raises — the request has a
string (or absent) `segmento`, a convertible (or absent/falsy) `preco`,
the avatar section is a dict (engine line 1125 calls `.get` on it), and
the fifth LLM call returns non-empty text — the result of
`generate_gigantic_analysis` carries all thirteen documented section keys,
however many stages fell back.  (The frozen claim quantified over every
combination of provider responses; see the counterexample.) -/
theorem c2_sections_present (env : Prov) (clock : Clock) (data : Dict)
    (hseg : SegOkB data = true) (hpreco : PrecoOkB data = true)
    (hav : AvatarOkB env data = true)
    {t4 : String} (hllm4 : env.llm 4 = .text t4) (ht4 : t4 ≠ "") :
    ∀ k ∈ sections13,
      hasKeyJ (generate_gigantic_analysis env clock data) k = true :=
  gga_has_sections env clock data hseg hpreco hav hllm4 ht4

/-- Witness for C2 at concrete input. -/
theorem c2_witness :
    SegOkB dataA = true ∧ PrecoOkB dataA = true ∧
    AvatarOkB provNonJson dataA = true ∧
    provNonJson.llm 4 = .text "this is not json" ∧
    hasKeyJ (generate_gigantic_analysis provNonJson clockA dataA)
      "insights_exclusivos" = true :=
  ⟨rfl, rfl, rfl, rfl,
   c2_sections_present provNonJson clockA dataA rfl rfl rfl rfl (by decide)
     "insights_exclusivos" (by decide)⟩

/-- Counterexample to C2 as frozen: first, when the fifth LLM call
raises, the pre-pitch stage hits the unbound name `data` (`NameError`),
the top-level handler returns the emergency result, and the documented
section key `pesquisa_web_massiva` (among ten others) is absent.  Second,
even with every validation precondition of the request satisfied and all
LLM responses non-empty, an avatar response parsing to the list `[1]`
makes engine line 1125 (`.get("comportamento")` on the avatar section)
raise `AttributeError` at the insights stage, and the run again degrades
to the emergency result. -/
theorem c2_counterexample :
    hasKeyJ (generate_gigantic_analysis provFailAt4 clockA dataA)
      "pesquisa_web_massiva" = false ∧
    generate_gigantic_analysis provFailAt4 clockA dataA =
      generate_emergency_analysis dataA nameErrorData ∧
    SegOkB dataA = true ∧ PrecoOkB dataA = true ∧
    provAvatarList.llm 0 = .text "[1]" ∧
    provAvatarList.llm 4 = .text "this is not json" ∧
    generate_gigantic_analysis provAvatarList clockA dataA =
      generate_emergency_analysis dataA
        "'list' object has no attribute 'get'" ∧
    hasKeyJ (generate_gigantic_analysis provAvatarList clockA dataA)
      "insights_exclusivos" = false :=
  ⟨rfl, rfl, rfl, rfl, rfl, rfl, rfl, rfl⟩

/-- Claim C3 (code bug).  The persistence create operation can never
succeed: `create_analysis` evaluates the unbound module name
`get_db_client` and its exception handler returns `None` on every input,
so a successful `POST /analyze` response never carries a `database_id`
key (and `routeSaveToDb` returns the report unchanged on every input). -/
theorem c3_database_id_never_attached :
    (∀ (d : Dict) (r : JVal), routeSaveToDb d r = r) ∧
    databaseModuleNames.contains "get_db_client" = false ∧
    create_analysis (routeDbPayload dataA
      (generate_gigantic_analysis provNonJson clockA dataA)) = none ∧
    (analyze_market renvA (some (.obj dataA))).status = 200 ∧
    hasKeyJ (analyze_market renvA (some (.obj dataA))).body
      "database_id" = false :=
  ⟨fun _ _ => rfl, rfl, rfl, rfl, rfl⟩

/-- Claim C4 (corrected).  In a completed run exactly six of the thirteen
stages call the LLM, once each, with token ceilings 8192, 8192, 8192,
8192, 8192 and 6144 and prompts embedding truncated prior sections; the
response parse strips an optional ```json code fence.  (The other seven
stages are pure template constructions; see the counterexample.) -/
theorem c4_llm_call_discipline (env : Prov) (data : Dict)
    (hseg : SegOkB data = true) (hpreco : PrecoOkB data = true)
    {t4 : String} (hllm4 : env.llm 4 = .text t4) (ht4 : t4 ≠ "") :
    (∃ avatar drivers : JVal,
      generate_gigantic_analysis_log env data =
        [⟨8192, avatarPromptCtx data (perform_massive_web_research env data)⟩,
         ⟨8192, driversPromptCtx avatar data⟩,
         ⟨8192, antiObjectionPromptCtx avatar⟩,
         ⟨8192, visualProofsPromptCtx data drivers⟩,
         ⟨8192, prePitchPromptCtx drivers avatar⟩,
         ⟨6144, competitionPromptCtx data (perform_massive_web_research env data)⟩]) ∧
    (∀ inner : String,
      parse_json_response ("```json" ++ inner ++ "```") =
        (jsonLoads (pyStrip inner)).getD (.obj [])) := by
  obtain ⟨vA, vD, hsnd⟩ := pipelineCore_snd env data hllm4 ht4
  exact ⟨⟨vA, vD, hsnd⟩, parse_json_response_fenced⟩

/-- Witness for C4 at concrete input. -/
theorem c4_witness :
    SegOkB dataA = true ∧ PrecoOkB dataA = true ∧
    provNonJson.llm 4 = .text "this is not json" ∧
    (∃ avatar drivers : JVal,
      generate_gigantic_analysis_log provNonJson dataA =
        [⟨8192, avatarPromptCtx dataA (perform_massive_web_research provNonJson dataA)⟩,
         ⟨8192, driversPromptCtx avatar dataA⟩,
         ⟨8192, antiObjectionPromptCtx avatar⟩,
         ⟨8192, visualProofsPromptCtx dataA drivers⟩,
         ⟨8192, prePitchPromptCtx drivers avatar⟩,
         ⟨6144, competitionPromptCtx dataA
           (perform_massive_web_research provNonJson dataA)⟩]) :=
  ⟨rfl, rfl, rfl,
   (c4_llm_call_discipline provNonJson dataA rfl rfl rfl (by decide)).1⟩

/-- Counterexample to C4 as frozen: a run that completed — its result has
the template-built sections `escopo` and `plano_acao_detalhado` — made
exactly six LLM calls, so it is not the case that every one of the
thirteen stages calls the LLM client. -/
theorem c4_counterexample :
    (generate_gigantic_analysis_log provNonJson dataA).map LLMCall.maxTokens =
      [8192, 8192, 8192, 8192, 8192, 6144] ∧
    (generate_gigantic_analysis_log provNonJson dataA).length = 6 ∧
    hasKeyJ (generate_gigantic_analysis provNonJson clockA dataA) "escopo" = true ∧
    hasKeyJ (generate_gigantic_analysis provNonJson clockA dataA)
      "plano_acao_detalhado" = true :=
  ⟨rfl, rfl, rfl, rfl⟩

/-- Claim C5 (corrected).  A stage exception is caught at the pipeline
level and the run returns `_generate_emergency_analysis(data, str(e))`:
three fallback-generator sections plus the triggering error string and
`status: emergency_mode` — but no quality score of any kind (and no
metadata), unlike the frozen claim's fixed low quality score. -/
theorem c5_emergency_result (env : Prov) (clock : Clock) (data : Dict)
    (e : String) (h : (pipelineCore env data []).1 = .error e) :
    generate_gigantic_analysis env clock data =
      generate_emergency_analysis data e ∧
    generate_emergency_analysis data e = .obj
      [("avatar_ultra_detalhado", generate_fallback_avatar data),
       ("drivers_mentais_customizados", generate_fallback_drivers data),
       ("sistema_anti_objecao", generate_fallback_anti_objection data),
       ("error", .str e),
       ("status", .str "emergency_mode")] ∧
    jContainsKey "quality_score" (generate_emergency_analysis data e) = false ∧
    jContainsKey "metadata" (generate_emergency_analysis data e) = false := by
  refine ⟨?_, rfl, rfl, rfl⟩
  simp [generate_gigantic_analysis, h]

/-- Witness for C5 at concrete input: with every LLM call raising, the
pre-pitch stage raises `NameError` and the run degrades to the emergency
result. -/
theorem c5_witness :
    (pipelineCore provAllFail dataA []).1 = .error nameErrorData ∧
    generate_gigantic_analysis provAllFail clockA dataA =
      generate_emergency_analysis dataA nameErrorData :=
  ⟨rfl, (c5_emergency_result provAllFail clockA dataA nameErrorData rfl).1⟩

/-- Counterexample to C5 as frozen: the emergency result of a failed run
is tagged with the error string and `emergency_mode`, but contains no
`quality_score` key anywhere — there is no fixed low quality score. -/
theorem c5_counterexample :
    jget (generate_gigantic_analysis provAllFail clockA dataA) "error" =
      some (.str nameErrorData) ∧
    jget (generate_gigantic_analysis provAllFail clockA dataA) "status" =
      some (.str "emergency_mode") ∧
    jContainsKey "quality_score"
      (generate_gigantic_analysis provAllFail clockA dataA) = false :=
  ⟨rfl, rfl, rfl⟩

/-- Claim C6 (corrected).  When `generate_analysis_report` completes, it
emits sections in the fixed order `pdfFullOrder` — the emitted sequence
is a sublist of that order, with no placeholder for absent keys — and
each optional section appears exactly when its key is present in the
input mapping.  Completion is not unconditional: the `_build_*` helpers
raise on ill-shaped section values, which completed pipeline runs
genuinely produce (see the counterexample). -/
theorem c6_pdf_sections (analysis_data : Dict) (secs : List PdfSection)
    (h : generate_analysis_report analysis_data = .ok secs) :
    secs.Sublist pdfFullOrder ∧
    ∀ pr ∈ pdfOptionalSections,
      (pr.2 ∈ secs ↔ hasKey analysis_data pr.1 = true) := by
  unfold generate_analysis_report at h
  obtain ⟨u1, hc, h⟩ := except_bind_ok h
  obtain ⟨u2, he, h⟩ := except_bind_ok h
  obtain ⟨s1, h1, h⟩ := except_bind_ok h
  obtain ⟨s2, h2, h⟩ := except_bind_ok h
  obtain ⟨s3, h3, h⟩ := except_bind_ok h
  obtain ⟨s4, h4, h⟩ := except_bind_ok h
  obtain ⟨s5, h5, h⟩ := except_bind_ok h
  obtain ⟨s6, h6, h⟩ := except_bind_ok h
  obtain ⟨s7, h7, h⟩ := except_bind_ok h
  obtain ⟨s8, h8, h⟩ := except_bind_ok h
  obtain ⟨s9, h9, h⟩ := except_bind_ok h
  obtain ⟨s10, h10, h⟩ := except_bind_ok h
  obtain ⟨s11, h11, h⟩ := except_bind_ok h
  obtain ⟨s12, h12, h⟩ := except_bind_ok h
  obtain ⟨s13, h13, h⟩ := except_bind_ok h
  injection h with h
  subst h
  constructor
  · have hord : pdfFullOrder =
        [PdfSection.cover, PdfSection.executiveSummary] ++ [PdfSection.avatar]
          ++ [PdfSection.drivers] ++ [PdfSection.antiObjection]
          ++ [PdfSection.visualProofs] ++ [PdfSection.prePitch]
          ++ [PdfSection.positioning] ++ [PdfSection.competition]
          ++ [PdfSection.marketing] ++ [PdfSection.metrics]
          ++ [PdfSection.projections] ++ [PdfSection.actionPlan]
          ++ [PdfSection.insights] ++ [PdfSection.research] := rfl
    rw [hord]
    exact (((((((((((((List.Sublist.refl
      [PdfSection.cover, PdfSection.executiveSummary]).append
      (sectionBlock_sublist h1)).append (sectionBlock_sublist h2)).append
      (sectionBlock_sublist h3)).append (sectionBlock_sublist h4)).append
      (sectionBlock_sublist h5)).append (sectionBlock_sublist h6)).append
      (sectionBlock_sublist h7)).append (sectionBlock_sublist h8)).append
      (sectionBlock_sublist h9)).append (sectionBlock_sublist h10)).append
      (sectionBlock_sublist h11)).append (sectionBlock_sublist h12)).append
      (sectionBlock_sublist h13)
  · intro pr hpr
    simp only [pdfOptionalSections] at hpr
    fin_cases hpr <;>
      simp [sectionBlock_mem h1, sectionBlock_mem h2, sectionBlock_mem h3,
        sectionBlock_mem h4, sectionBlock_mem h5, sectionBlock_mem h6,
        sectionBlock_mem h7, sectionBlock_mem h8, sectionBlock_mem h9,
        sectionBlock_mem h10, sectionBlock_mem h11, sectionBlock_mem h12,
        sectionBlock_mem h13]

/-- Witness for C6 at concrete input: the fixture request dict renders to
cover page and executive summary only, and no positioning section is
emitted since it has no `escopo` key. -/
theorem c6_witness :
    generate_analysis_report dataA =
      .ok [PdfSection.cover, PdfSection.executiveSummary] ∧
    [PdfSection.cover, PdfSection.executiveSummary].Sublist pdfFullOrder ∧
    (PdfSection.positioning ∈ [PdfSection.cover, PdfSection.executiveSummary] ↔
      hasKey dataA "escopo" = true) :=
  ⟨rfl,
   (c6_pdf_sections dataA [PdfSection.cover, PdfSection.executiveSummary] rfl).1,
   (c6_pdf_sections dataA [PdfSection.cover, PdfSection.executiveSummary] rfl).2
     ("escopo", PdfSection.positioning) (by decide)⟩

/-- Counterexample to C6 as frozen: a completed pipeline run whose fifth
LLM response is the valid-JSON list text `"[1]"` stores the list `[1]`
under `pre_pitch_invisivel`, and `generate_analysis_report` on that very
result raises `AttributeError` at pdf_generator.py line 419
(`pre_pitch_data.get('orquestracao_emocional')` on a list) — PDF
rendering does not complete without error for every report mapping. -/
theorem c6_counterexample :
    jget (generate_gigantic_analysis provPrePitchList clockA dataA)
      "pre_pitch_invisivel" = some (.arr [.num ⟨1, 0⟩]) ∧
    generate_analysis_report
      (asDict (generate_gigantic_analysis provPrePitchList clockA dataA)) =
      .error "'list' object has no attribute 'get'" ∧
    generate_analysis_report [("pre_pitch_invisivel", .arr [.num ⟨1, 0⟩])] =
      .error "'list' object has no attribute 'get'" :=
  ⟨rfl, rfl, rfl⟩

/-- Claim C7 (code bug).  The persistence round trip can never yield the
written JSON back: `create_analysis` returns `None` on every input (its
body evaluates the unbound module name `get_db_client`), and even apart
from that, the set of column names its insert dict would write is
disjoint from the `json_fields` allowlist that `get_analysis` decodes —
no allowlisted column is ever written and no written column is ever
decoded. -/
theorem c7_roundtrip_never_succeeds :
    (∀ analysis_data : Dict, create_analysis analysis_data = none) ∧
    (∀ c ∈ create_analysis_insert_columns, json_fields.contains c = false) ∧
    (∀ k ∈ json_fields, create_analysis_insert_columns.contains k = false) :=
  ⟨fun _ => rfl, by decide, by decide⟩

/-- Witness for C7 at concrete input. -/
theorem c7_witness :
    ("comprehensive_analysis" ∈ json_fields) ∧
    create_analysis_insert_columns.contains "comprehensive_analysis" = false ∧
    create_analysis [] = none :=
  ⟨by decide,
   c7_roundtrip_never_succeeds.2.2 "comprehensive_analysis" (by decide),
   c7_roundtrip_never_succeeds.1 []⟩

/-- Claim C8 (corrected).  With the providers fixed, every one of the
thirteen section values of `generate_gigantic_analysis` is independent of
the wall-clock readings — but the run's `metadata` is not (it embeds
`datetime.utcnow().isoformat()` and the elapsed time), so two runs at
different times differ in output; see the counterexample. -/
theorem c8_sections_clock_independent (prov : Prov) (c c' : Clock)
    (data : Dict) :
    ∀ k ∈ sections13,
      jget (generate_gigantic_analysis prov c data) k =
        jget (generate_gigantic_analysis prov c' data) k := by
  intro k hk
  have hkm : k ≠ "metadata" := by
    simp only [sections13] at hk
    fin_cases hk <;> decide
  unfold generate_gigantic_analysis
  cases hres : (pipelineCore prov data []).1 with
  | error e => rfl
  | ok r =>
    show dictGet (dictSet r "metadata" (engineMetadata c)) k =
      dictGet (dictSet r "metadata" (engineMetadata c')) k
    rw [dictGet_dictSet_ne _ _ hkm, dictGet_dictSet_ne _ _ hkm]

/-- Witness for C8 at concrete input. -/
theorem c8_witness :
    ("escopo" ∈ sections13) ∧
    jget (generate_gigantic_analysis provNonJson clockA dataA) "escopo" =
      jget (generate_gigantic_analysis provNonJson clockB dataA) "escopo" :=
  ⟨by decide,
   c8_sections_clock_independent provNonJson clockA clockB dataA "escopo"
     (by decide)⟩

/-- Counterexample to C8 as frozen: identical request and identical
provider responses, two different wall-clock readings — the two outputs
differ in the metadata `generated_at` string. -/
theorem c8_counterexample :
    metaGeneratedAt (generate_gigantic_analysis provNonJson clockA dataA) =
      "2024-01-01T00:00:00" ∧
    metaGeneratedAt (generate_gigantic_analysis provNonJson clockB dataA) =
      "2024-01-02T12:34:56" ∧
    (metaGeneratedAt (generate_gigantic_analysis provNonJson clockA dataA) ==
      metaGeneratedAt (generate_gigantic_analysis provNonJson clockB dataA)) =
        false :=
  ⟨rfl, rfl, rfl⟩

/-- Claim C9 (corrected).  A parseable request body whose `segmento` field
is missing or falsy is rejected with status 400 before the pipeline runs;
but a request with no parseable body at all lands in the catch-all
handler, which answers 500 — a server error, not the client error the
frozen claim states — though the pipeline is still never invoked. -/
theorem c9_missing_segmento_rejected (env : RouteEnv) :
    (∀ kvs : Dict,
      (dictGet kvs "segmento").elim false pyTruthy = false →
      (analyze_market env (some (.obj kvs))).status = 400 ∧
      (analyze_market env (some (.obj kvs))).pipelineInvoked = false) ∧
    ((analyze_market env none).status = 500 ∧
      (analyze_market env none).pipelineInvoked = false) := by
  refine ⟨?_, rfl, rfl⟩
  intro kvs hseg
  unfold analyze_market
  by_cases hobj : pyTruthy (.obj kvs)
  · constructor <;> simp [hobj, hseg]
  · constructor <;> simp [hobj]

/-- Witness for C9 at concrete input. -/
theorem c9_witness :
    (dictGet [("produto", JVal.str "curso")] "segmento").elim false
      pyTruthy = false ∧
    (analyze_market renvA
      (some (.obj [("produto", JVal.str "curso")]))).status = 400 ∧
    (analyze_market renvA
      (some (.obj [("produto", JVal.str "curso")]))).pipelineInvoked = false :=
  ⟨rfl,
   ((c9_missing_segmento_rejected renvA).1 [("produto", JVal.str "curso")] rfl).1,
   ((c9_missing_segmento_rejected renvA).1 [("produto", JVal.str "curso")] rfl).2⟩

/-- Counterexample to C9 as frozen: the request with no parseable body is
answered with status 500, which is not in the client-error range. -/
theorem c9_counterexample :
    (analyze_market renvA none).status = 500 ∧
    decide (400 ≤ (analyze_market renvA none).status ∧
      (analyze_market renvA none).status < 500) = false ∧
    (analyze_market renvA none).pipelineInvoked = false :=
  ⟨rfl, rfl, rfl⟩

/-- Claim C10 (confirmed).  `get_analysis` is total: a backend exception
or an empty row set yields `None`; a found row is returned with its keys
intact; a field is decoded only when it is on the nine-name allowlist and
is a truthy string, a non-string or unlisted field is returned unchanged,
and a string whose text fails to parse as JSON is kept as the stored
string instead of raising. -/
theorem c10_get_analysis_never_raises :
    (∀ e : String, get_analysis (.error e) = none) ∧
    get_analysis (.ok []) = none ∧
    (∀ (row : Dict) (rest : List Dict), ∃ decoded,
      get_analysis (.ok (row :: rest)) = some decoded ∧
      decoded.map Prod.fst = row.map Prod.fst) ∧
    (∀ (k : String) (v : JVal), json_fields.contains k = false →
      decodeJsonField k v = v) ∧
    (∀ (k : String) (v : JVal), isStr v = false → decodeJsonField k v = v) ∧
    (∀ (k s : String), jsonLoads s = none →
      decodeJsonField k (.str s) = .str s) ∧
    (∀ (k s : String) (w : JVal), json_fields.contains k = true →
      pyTruthy (.str s) = true → jsonLoads s = some w →
      decodeJsonField k (.str s) = w) := by
  refine ⟨fun _ => rfl, rfl, fun row rest => ⟨_, rfl, map_decode_fst row⟩,
    fun k v h => ?_, decodeJsonField_nonstr, decodeJsonField_str_noparse,
    decodeJsonField_str_parse⟩
  unfold decodeJsonField
  rw [h]
  simp

/-- Witness for C10 at concrete inputs: an allowlisted string field with
parseable text is decoded, one with unparseable text is kept verbatim. -/
theorem c10_witness :
    json_fields.contains "avatar_data" = true ∧
    pyTruthy (JVal.str "[]") = true ∧
    jsonLoads "[]" = some (.arr []) ∧
    decodeJsonField "avatar_data" (.str "[]") = .arr [] ∧
    jsonLoads "not json" = none ∧
    decodeJsonField "avatar_data" (.str "not json") = .str "not json" :=
  ⟨rfl, by decide, rfl,
   c10_get_analysis_never_raises.2.2.2.2.2.2 "avatar_data" "[]" (.arr [])
     rfl (by decide) rfl,
   rfl,
   c10_get_analysis_never_raises.2.2.2.2.2.1 "avatar_data" "not json" rfl⟩

end V41
